import Mathlib

/-!
Verification of the mini-crm-core public form submission pipeline.

This file shallowly embeds the parts of the TypeScript source relevant to the
frozen claims: the string normalizers (`src/utils/normalizeEmail.ts`, the
`normalizePhone` helper module and the route-local copy in
`src/routes/public.ts`), the contact-name defaulting, the zod form schemas and
the unified POST handler of `src/routes/public.ts`, the `findOrCreateContact`
helper, and the database uniqueness constraint
`Case_projectId_clientRequestId_key` from the migration
`20251222130634_p02_publickey_idempotency`.

JavaScript strings are modelled as `List Char`; JSON values as an inductive
`JVal`; the relational store as lists of rows with explicit id counters; the
unique index on `(projectId, clientRequestId)` as an atomic
check-then-insert in the small-step concurrency model.
-/

namespace MiniCrm

/-- JavaScript strings, modelled as lists of characters. -/
abbrev Str := List Char

/-- Characters removed by JavaScript `String.prototype.trim`: space, tab,
line feed, carriage return, vertical tab, form feed and no-break space
(the remaining rarer Unicode space code points never occur in the inputs
the theorems below touch, and including them would change nothing in the
proofs, which only use that whitespace is disjoint from digits, letters,
`+` and `@`). -/
def isWs (c : Char) : Bool :=
  c.toNat = 32 || c.toNat = 9 || c.toNat = 10 || c.toNat = 13 ||
    c.toNat = 11 || c.toNat = 12 || c.toNat = 160

/-- JavaScript `String.prototype.trim`: drop whitespace from both ends. -/
def trim (l : Str) : Str :=
  List.rdropWhile isWs (List.dropWhile isWs l)

/-- JavaScript `String.prototype.toLowerCase` on one character.  The source
only ever lowercases email addresses, for which the ASCII mapping
`A`–`Z` ↦ `a`–`z` is the whole behaviour. -/
def toLowerChar (c : Char) : Char :=
  if 65 ≤ c.toNat ∧ c.toNat ≤ 90 then Char.ofNat (c.toNat + 32) else c

/-- The character class of the JavaScript regex `\d` (ASCII digits 0-9). -/
def isDigitCh (c : Char) : Bool :=
  48 ≤ c.toNat && c.toNat ≤ 57

/-- `normalizeEmail` from `src/utils/normalizeEmail.ts`:
`String(input ?? '').trim().toLowerCase()`. -/
def normalizeEmail (s : Str) : Str :=
  (trim s).map toLowerChar

/-- `normalizePhone` from the phone normalizer module (`src/unnamed/part_008`):
trim, remember whether the trimmed value starts with `+`, strip every
non-digit (`v.replace(/\D+/g, '')`), and re-attach the leading `+`.
Empty input or no digits yields the empty ("absent") result. -/
def normalizePhone (s : Str) : Str :=
  if trim s = [] then []
  else if (trim s).filter isDigitCh = [] then []
  else if (trim s).head? = some '+' then '+' :: (trim s).filter isDigitCh
  else (trim s).filter isDigitCh

/-- `normalizeEmailOptional`: `undefined` for empty/whitespace-only input. -/
def normalizeEmailOptional (s : Option Str) : Option Str :=
  if normalizeEmail (s.getD []) = [] then none else some (normalizeEmail (s.getD []))

/-- `normalizePhoneOptional`: `undefined` for empty/whitespace-only input. -/
def normalizePhoneOptional (s : Option Str) : Option Str :=
  if normalizePhone (s.getD []) = [] then none else some (normalizePhone (s.getD []))

/-- The route-local `normalizePhone` of `src/routes/public.ts` (lines 52-59).
Its regex `(?!^\+)\D+` keeps a `+` only in position 0 and strips every
other non-digit; it differs from the helper module in that a lone `+`
survives. Returns `none` for absent/empty results (`undefined` in JS). -/
def routeCleanPhone (v : Str) : Str :=
  if v.head? = some '+' then '+' :: (v.tail.filter isDigitCh)
  else v.filter isDigitCh

/-- See `routeCleanPhone` for the regex core. -/
def normalizePhoneRoute (raw : Option Str) : Option Str :=
  match raw with
  | none => none
  | some r =>
    if trim r = [] then none
    else if routeCleanPhone (trim r) = [] then none
    else some (routeCleanPhone (trim r))

/-- `normalizeText` of `src/routes/public.ts` (lines 61-65): trim, with
empty results mapped to `undefined`. -/
def normalizeText (raw : Option Str) : Option Str :=
  match raw with
  | none => none
  | some r =>
    if trim r = [] then none else some (trim r)

/-- `computeContactName` (identical copies in `src/routes/public.ts` lines
10-18 and the contact helper module): first non-empty of trimmed name,
trimmed email, trimmed phone, each truncated to 255 characters, else the
literal `"Unknown"`. -/
def computeContactName (name email phone : Option Str) : Str :=
  if (name.map trim).getD [] ≠ [] then ((name.map trim).getD []).take 255
  else if (email.map trim).getD [] ≠ [] then ((email.map trim).getD []).take 255
  else if (phone.map trim).getD [] ≠ [] then ((phone.map trim).getD []).take 255
  else ("Unknown".toList)

/-- The local part of an email address (everything before the `@`).
Modelled from the spec: "display name defaults, in order, to the given
name, else the email local-part, ..." — used only to compare the spec's
wording with what `computeContactName` actually does. -/
def emailLocalPart (s : Str) : Str :=
  s.takeWhile (fun c => ¬ c = '@')

/-! ### Character-level lemmas -/

theorem toNat_ofNat_of_valid {n : Nat} (h : n < 55296) : (Char.ofNat n).toNat = n := by
  have hv : n.isValidChar := Or.inl h
  rw [Char.ofNat, dif_pos hv]
  rfl

theorem isWs_toLowerChar (c : Char) : isWs (toLowerChar c) = isWs c := by
  unfold toLowerChar
  split
  · rename_i h
    have h32 : (Char.ofNat (c.toNat + 32)).toNat = c.toNat + 32 :=
      toNat_ofNat_of_valid (by omega)
    rw [Bool.eq_iff_iff]
    simp only [isWs, h32, Bool.or_eq_true, decide_eq_true_eq]
    omega
  · rfl

theorem toLowerChar_idem (c : Char) : toLowerChar (toLowerChar c) = toLowerChar c := by
  unfold toLowerChar
  split
  · rename_i h
    have h32 : (Char.ofNat (c.toNat + 32)).toNat = c.toNat + 32 :=
      toNat_ofNat_of_valid (by omega)
    rw [if_neg]
    rw [h32]; omega
  · rfl

theorem isDigitCh_not_isWs {c : Char} (h : isDigitCh c = true) : isWs c = false := by
  simp only [isDigitCh, Bool.and_eq_true, decide_eq_true_eq] at h
  simp only [isWs, Bool.or_eq_false_iff, decide_eq_false_iff_not]
  omega

theorem plus_not_isWs : isWs '+' = false := by decide

theorem isDigitCh_ne_plus {c : Char} (h : isDigitCh c = true) : c ≠ '+' := by
  intro hc
  subst hc
  simp [isDigitCh] at h

/-! ### Trim lemmas -/

theorem dropWhile_head_false {p : Char → Bool} {l : Str} {a : Char} {t : Str}
    (h : l.dropWhile p = a :: t) : p a = false := by
  induction l with
  | nil => simp at h
  | cons x xs ih =>
    rw [List.dropWhile_cons] at h
    by_cases hp : p x = true
    · rw [if_pos hp] at h
      exact ih h
    · rw [if_neg hp] at h
      obtain ⟨rfl, rfl⟩ := List.cons.inj h
      simpa using hp

theorem trim_idem (l : Str) : trim (trim l) = trim l := by
  unfold trim
  have hdrop :
      List.dropWhile isWs (List.rdropWhile isWs (List.dropWhile isWs l))
        = List.rdropWhile isWs (List.dropWhile isWs l) := by
    cases hRc : List.rdropWhile isWs (List.dropWhile isWs l) with
    | nil => simp
    | cons x xs =>
      obtain ⟨t, ht⟩ := List.rdropWhile_prefix isWs (List.dropWhile isWs l)
      rw [hRc] at ht
      have hAx : List.dropWhile isWs l = x :: (xs ++ t) := by
        rw [← ht, List.cons_append]
      have hx : isWs x = false := dropWhile_head_false hAx
      rw [List.dropWhile_cons, hx]
      simp
  rw [hdrop, List.rdropWhile_idempotent]

theorem trim_eq_self_of_no_ws {l : Str} (h : ∀ c ∈ l, isWs c = false) :
    trim l = l := by
  unfold trim
  have h1 : List.dropWhile isWs l = l := by
    rw [List.dropWhile_eq_self_iff]
    intro hl
    simp only [Bool.not_eq_true]
    exact h _ (List.get_mem l 0 hl)
  rw [h1, List.rdropWhile_eq_self_iff]
  intro hl
  simp only [Bool.not_eq_true]
  exact h _ (List.getLast_mem hl)

theorem trim_map_toLowerChar (l : Str) :
    trim (l.map toLowerChar) = (trim l).map toLowerChar := by
  have hfun : (isWs ∘ toLowerChar) = isWs := funext isWs_toLowerChar
  unfold trim List.rdropWhile
  rw [List.dropWhile_map, hfun, ← List.map_reverse, List.dropWhile_map, hfun,
    ← List.map_reverse]

/-! ### The normalizer claims (C9) -/

theorem normalizeEmail_idem (s : Str) :
    normalizeEmail (normalizeEmail s) = normalizeEmail s := by
  unfold normalizeEmail
  have hcomp : toLowerChar ∘ toLowerChar = toLowerChar := funext toLowerChar_idem
  rw [trim_map_toLowerChar, trim_idem, List.map_map, hcomp]

theorem normalizePhone_shape (s : Str) :
    normalizePhone s = [] ∨
      (∃ d ds, normalizePhone s = d :: ds ∧ isDigitCh d = true ∧
        (∀ c ∈ d :: ds, isDigitCh c = true)) ∨
      (∃ d ds, normalizePhone s = '+' :: d :: ds ∧
        (∀ c ∈ d :: ds, isDigitCh c = true)) := by
  unfold normalizePhone
  split
  · exact Or.inl rfl
  · split
    · exact Or.inl rfl
    · rename_i hv hd
      have hall : ∀ c ∈ (trim s).filter isDigitCh, isDigitCh c = true := by
        intro c hc
        exact List.of_mem_filter hc
      cases hfc : (trim s).filter isDigitCh with
      | nil => exact absurd hfc hd
      | cons d ds =>
        rw [hfc] at hall
        split
        · exact Or.inr (Or.inr ⟨d, ds, rfl, hall⟩)
        · exact Or.inr (Or.inl ⟨d, ds, rfl, hall d (by simp), hall⟩)

theorem normalizePhone_of_all_digits {l : Str} (hne : l ≠ [])
    (hall : ∀ c ∈ l, isDigitCh c = true) (hhd : l.head? ≠ some '+') :
    normalizePhone l = l := by
  unfold normalizePhone
  have htr : trim l = l :=
    trim_eq_self_of_no_ws (fun c hc => isDigitCh_not_isWs (hall c hc))
  have hf : l.filter isDigitCh = l := List.filter_eq_self.mpr hall
  rw [htr, hf, if_neg hne, if_neg hne, if_neg hhd]

theorem normalizePhone_idem (s : Str) :
    normalizePhone (normalizePhone s) = normalizePhone s := by
  rcases normalizePhone_shape s with h | ⟨d, ds, h, hd, hall⟩ | ⟨d, ds, h, hall⟩
  · rw [h]
    rfl
  · rw [h]
    apply normalizePhone_of_all_digits (by simp) hall
    simp only [List.head?_cons, ne_eq, Option.some.injEq]
    exact isDigitCh_ne_plus hd
  · rw [h]
    unfold normalizePhone
    have hnows : ∀ c ∈ '+' :: d :: ds, isWs c = false := by
      intro c hc
      rw [List.mem_cons] at hc
      rcases hc with rfl | hc
      · exact plus_not_isWs
      · exact isDigitCh_not_isWs (hall c hc)
    have htr : trim ('+' :: d :: ds) = '+' :: d :: ds :=
      trim_eq_self_of_no_ws hnows
    have hfd : (d :: ds).filter isDigitCh = d :: ds := List.filter_eq_self.mpr hall
    have hf : ('+' :: d :: ds).filter isDigitCh = d :: ds := by
      rw [List.filter_cons]
      have hpl : isDigitCh '+' = false := by decide
      simp [hpl, hfd]
    rw [htr, hf, if_neg (by simp), if_neg (by simp), if_pos (by simp)]

/-- C9: `normalizeEmail` and `normalizePhone` are total Lean functions
(purity and totality are inherent in the embedding) and both are
idempotent on every string. -/
theorem claim_C9_normalizers_idempotent (s : Str) :
    normalizeEmail (normalizeEmail s) = normalizeEmail s ∧
      normalizePhone (normalizePhone s) = normalizePhone s :=
  ⟨normalizeEmail_idem s, normalizePhone_idem s⟩

/-! ### Contact display name (C8) -/

/-- C8 counterexample: the code falls back to the **whole** email, not the
email local-part: with no name given and email `user@example.com`, the
created contact's display name is `user@example.com`, which differs from
the local-part `user` that the claim prescribes. -/
theorem claim_C8_counterexample :
    computeContactName none (some ("user@example.com".toList)) none
        = "user@example.com".toList ∧
      computeContactName none (some ("user@example.com".toList)) none
        ≠ emailLocalPart ("user@example.com".toList) := by
  constructor
  · rfl
  · decide

/-- C8 amended: the display name is the given name if non-empty after
trimming, else the **full** email, else the phone, else the literal
`"Unknown"` (each truncated to 255 characters) — and is never blank. -/
theorem take255_ne_nil {l : Str} (h : l ≠ []) : l.take 255 ≠ [] := by
  cases l with
  | nil => exact absurd rfl h
  | cons a t => simp

theorem claim_C8_amended (name email phone : Option Str) :
    computeContactName name email phone ≠ [] ∧
      (∀ e, email = some e → trim e ≠ [] → (name.map trim).getD [] = [] →
        computeContactName name email phone = (trim e).take 255) := by
  constructor
  · unfold computeContactName
    split
    · rename_i h
      exact take255_ne_nil h
    · split
      · rename_i h
        exact take255_ne_nil h
      · split
        · rename_i h
          exact take255_ne_nil h
        · decide
  · intro e he hne hname
    unfold computeContactName
    rw [hname, he]
    simp only [Option.map_some', Option.getD_some, ne_eq, not_true_eq_false]
    rw [if_neg (by simp), if_pos hne]

/-- Witness for the amended C8 theorem at a concrete input. -/
theorem claim_C8_amended_witness :
    computeContactName none (some ("bob@x.co".toList)) none ≠ [] ∧
      computeContactName none (some ("bob@x.co".toList)) none
        = (trim ("bob@x.co".toList)).take 255 := by
  obtain ⟨h1, h2⟩ := claim_C8_amended none (some ("bob@x.co".toList)) none
  exact ⟨h1, h2 ("bob@x.co".toList) rfl (by decide) rfl⟩

/-! ### JSON values and number coercion -/

/-- A JavaScript number: either `NaN` or a rational value (the float
subtleties of IEEE 754 play no role in any claim). -/
inductive JNum where
  | nan
  | val (q : ℚ)
deriving DecidableEq

/-- A JSON/JavaScript value as seen by the request body handling code. -/
inductive JVal where
  | undef
  | null
  | str (s : Str)
  | num (n : JNum)
  | bool (b : Bool)
deriving DecidableEq

/-- A JSON object (the request body). -/
abbrev JObj := List (Str × JVal)

/-- Property access `body[key]`: `undefined` when the key is missing. -/
def JObj.get (o : JObj) (k : Str) : JVal :=
  match o.find? (fun p => p.1 == k) with
  | some p => p.2
  | none => JVal.undef

def digitsToNat (l : Str) : Nat :=
  l.foldl (fun acc c => acc * 10 + (c.toNat - 48)) 0

/-- JavaScript `Number()` on an unsigned decimal literal (`123`, `1.5`,
`.5`, `1.`); returns `none` for anything else. Hexadecimal, exponent and
`Infinity` forms are not modelled: the only string-to-number coercion in
the source is zod's `z.coerce.number()` on form fields, and no theorem
below depends on those exotic forms. -/
def parseDecimal (l : Str) : Option ℚ :=
  if (l.takeWhile isDigitCh) = l.dropLast ∧ l.getLast? = some '.' then
    if l.dropLast = [] then none
    else some ((digitsToNat l.dropLast : ℚ))
  else
    match l.dropWhile isDigitCh with
    | [] => if l = [] then none else some ((digitsToNat l : ℚ))
    | '.' :: frac =>
      if frac.all isDigitCh ∧ frac ≠ [] ∧ (l.takeWhile isDigitCh ≠ [] ∨ frac ≠ []) then
        some ((digitsToNat (l.takeWhile isDigitCh) : ℚ)
          + (digitsToNat frac : ℚ) / (10 ^ frac.length : ℚ))
      else none
    | _ => none

/-- JavaScript `Number()` on a string: trim, empty means `0`, optional
sign, decimal literal, otherwise `NaN`. -/
def jsStringToNumber (s : Str) : JNum :=
  if trim s = [] then JNum.val 0
  else
    match trim s with
    | '-' :: r => match parseDecimal r with
      | some q => JNum.val (-q)
      | none => JNum.nan
    | '+' :: r => match parseDecimal r with
      | some q => JNum.val q
      | none => JNum.nan
    | v => match parseDecimal v with
      | some q => JNum.val q
      | none => JNum.nan

/-- JavaScript `Number()` coercion, as performed by `z.coerce.number()`:
`Number(undefined) = NaN`, `Number(null) = 0`, booleans to 0/1. -/
def jsToNumber (v : JVal) : JNum :=
  match v with
  | JVal.undef => JNum.nan
  | JVal.null => JNum.val 0
  | JVal.bool b => JNum.val (if b then 1 else 0)
  | JVal.num n => n
  | JVal.str s => jsStringToNumber s

/-! ### The zod schemas of `src/routes/public.ts` -/

/-- One entry of a `ZodError`'s `errors` list, projected onto the parts the
route's 400 response exposes (`details: error.errors`): the `path` and the
`message`. Real zod issues also carry `code`/`expected`/`received`; none
of the claims mention them. -/
structure ZIssue where
  path : List Str
  message : Str
deriving DecidableEq

def isAsciiAlpha (c : Char) : Bool :=
  (65 ≤ c.toNat && c.toNat ≤ 90) || (97 ≤ c.toNat && c.toNat ≤ 122)

def isAsciiAlphaNum (c : Char) : Bool :=
  isAsciiAlpha c || isDigitCh c

def isEmailLocalChar (c : Char) : Bool :=
  isAsciiAlphaNum c || c == '_' || c == '\'' || c == '+' || c == '-' || c == '.'

def isEmailLocalEnd (c : Char) : Bool :=
  isAsciiAlphaNum c || c == '_' || c == '+' || c == '-'

def hasDoubleDot : Str → Bool
  | [] => false
  | [_] => false
  | a :: b :: t => (a == '.' && b == '.') || hasDoubleDot (b :: t)

def zodEmailLocalOk (l : Str) : Bool :=
  !(l.isEmpty) && l.all isEmailLocalChar &&
    (match l.getLast? with
     | some c => isEmailLocalEnd c
     | none => false)

def zodEmailLabelOk (lab : Str) : Bool :=
  match lab with
  | [] => false
  | c :: r => isAsciiAlphaNum c && r.all (fun x => isAsciiAlphaNum x || x == '-')

def zodEmailDomainOk (d : Str) : Bool :=
  2 ≤ (d.splitOn '.').length &&
    (match (d.splitOn '.').getLast? with
     | some tld => 2 ≤ tld.length && tld.all isAsciiAlpha
     | none => false) &&
    (d.splitOn '.').dropLast.all zodEmailLabelOk

/-- The zod v3 `.email()` regex
`/^(?!\.)(?!.*\.\.)([A-Z0-9_'+\-\.]*)[A-Z0-9_+-]@([A-Z0-9][A-Z0-9\-]*\.)+[A-Z]{2,}$/i`
as an executable predicate: no leading dot, no `..` anywhere, a non-empty
local part over the allowed class whose last character excludes `.` and
the apostrophe, one `@`, then one or more alphanumeric-starting labels
and a final alphabetic TLD of length at least 2. -/
def zodEmailCheck (s : Str) : Bool :=
  (match s.head? with
   | some c => !(c == '.')
   | none => false) &&
  !(hasDoubleDot s) &&
  zodEmailLocalOk (s.takeWhile (fun c => !(c == '@'))) &&
  (match s.dropWhile (fun c => !(c == '@')) with
   | [] => false
   | _ :: domain => zodEmailDomainOk domain)

/-- The zod `received` name of a value's parsed type, as interpolated into
`invalid_type` messages. -/
def zodReceived (v : JVal) : Str :=
  match v with
  | JVal.undef => "undefined".toList
  | JVal.null => "null".toList
  | JVal.str _ => "string".toList
  | JVal.num JNum.nan => "nan".toList
  | JVal.num _ => "number".toList
  | JVal.bool _ => "boolean".toList

/-- Parse one string field of the zod object schemas:
`z.string().trim()[.email()].max(maxLen)[.optional()]`. Returns the
issues contributed by the field (in check order) and the transformed
value. An absent optional field contributes nothing; an absent required
field contributes the `"Required"` issue. -/
def fieldString (key : Str) (isOpt : Bool) (checkEmail : Bool) (maxLen : Nat)
    (v : JVal) : List ZIssue × Option Str :=
  match v with
  | JVal.undef =>
    if isOpt then ([], none) else ([⟨[key], "Required".toList⟩], none)
  | JVal.str s =>
    ((if checkEmail ∧ ¬ zodEmailCheck (trim s) = true then
        [⟨[key], "Invalid email".toList⟩]
      else []) ++
     (if maxLen < (trim s).length then
        [⟨[key], ("String must contain at most ".toList ++
          (toString maxLen).toList ++ " character(s)".toList)⟩]
      else []),
     some (trim s))
  | v =>
    ([⟨[key], ("Expected string, received ".toList ++ zodReceived v)⟩], none)

/-- The honeypot field `__hp: z.string().optional()` (no trim, no checks). -/
def fieldHp (key : Str) (v : JVal) : List ZIssue × Option Str :=
  match v with
  | JVal.undef => ([], none)
  | JVal.str s => ([], some s)
  | v =>
    ([⟨[key], ("Expected string, received ".toList ++ zodReceived v)⟩], none)

/-- The donation `amount` field:
`z.coerce.number().positive('amount must be greater than 0').max(1_000_000, 'amount is too large')`.
Coercion happens before the type check, so a missing field becomes `NaN`
and is reported as `"Expected number, received nan"` — not `"Required"`. -/
def fieldAmount (key : Str) (v : JVal) : List ZIssue × Option ℚ :=
  match jsToNumber v with
  | JNum.nan => ([⟨[key], "Expected number, received nan".toList⟩], none)
  | JNum.val q =>
    ((if ¬ 0 < q then [⟨[key], "amount must be greater than 0".toList⟩] else []) ++
     (if 1000000 < q then [⟨[key], "amount is too large".toList⟩] else []),
     some q)

/-- The feedback `rating` field: `z.coerce.number().min(1).max(5).optional()`. -/
def fieldRating (key : Str) (v : JVal) : List ZIssue × Option ℚ :=
  match v with
  | JVal.undef => ([], none)
  | v =>
    match jsToNumber v with
    | JNum.nan => ([⟨[key], "Expected number, received nan".toList⟩], none)
    | JNum.val q =>
      ((if q < 1 then
          [⟨[key], "Number must be greater than or equal to 1".toList⟩]
        else []) ++
       (if 5 < q then
          [⟨[key], "Number must be less than or equal to 5".toList⟩]
        else []),
       some q)

/-- Truthiness of a parsed optional string (`data.name || data.email || ...`):
present and non-empty. -/
def truthyStr (o : Option Str) : Bool :=
  match o with
  | some s => !(s.isEmpty)
  | none => false

/-- The issue appended by the `requireOneOf`-style `.refine` shared by all
four schemas. -/
def refineIssue : ZIssue :=
  ⟨["name".toList], "At least one of name, email or phone is required".toList⟩

structure LeadParsed where
  name : Option Str
  email : Option Str
  phone : Option Str
  message : Option Str
  source : Option Str
  hp : Option Str
deriving DecidableEq

/-- `publicLeadSchema.parse`: field checks in shape order, then the
`.refine` requiring one of name/email/phone. -/
def parseLead (body : JObj) : Except (List ZIssue) LeadParsed :=
  match fieldString ("name".toList) true false 100 (body.get ("name".toList)),
      fieldString ("email".toList) true true 255 (body.get ("email".toList)),
      fieldString ("phone".toList) true false 30 (body.get ("phone".toList)),
      fieldString ("message".toList) true false 2000 (body.get ("message".toList)),
      fieldString ("source".toList) true false 100 (body.get ("source".toList)),
      fieldHp ("__hp".toList) (body.get ("__hp".toList)) with
  | (e1, name), (e2, email), (e3, phone), (e4, message), (e5, source), (e6, hp) =>
    if e1 ++ e2 ++ e3 ++ e4 ++ e5 ++ e6 ≠ [] then
      Except.error (e1 ++ e2 ++ e3 ++ e4 ++ e5 ++ e6)
    else if !(truthyStr name || truthyStr email || truthyStr phone) then
      Except.error [refineIssue]
    else
      Except.ok ⟨name, email, phone, message, source, hp⟩

structure DonationParsed where
  name : Option Str
  email : Option Str
  phone : Option Str
  amount : ℚ
  message : Option Str
  source : Option Str
  hp : Option Str
deriving DecidableEq

/-- `publicDonationSchema.parse`. -/
def parseDonation (body : JObj) : Except (List ZIssue) DonationParsed :=
  match fieldString ("name".toList) true false 100 (body.get ("name".toList)),
      fieldString ("email".toList) true true 255 (body.get ("email".toList)),
      fieldString ("phone".toList) true false 30 (body.get ("phone".toList)),
      fieldAmount ("amount".toList) (body.get ("amount".toList)),
      fieldString ("message".toList) true false 2000 (body.get ("message".toList)),
      fieldString ("source".toList) true false 100 (body.get ("source".toList)),
      fieldHp ("__hp".toList) (body.get ("__hp".toList)) with
  | (e1, name), (e2, email), (e3, phone), (e4, amount), (e5, message), (e6, source),
      (e7, hp) =>
    if e1 ++ e2 ++ e3 ++ e4 ++ e5 ++ e6 ++ e7 ≠ [] then
      Except.error (e1 ++ e2 ++ e3 ++ e4 ++ e5 ++ e6 ++ e7)
    else if !(truthyStr name || truthyStr email || truthyStr phone) then
      Except.error [refineIssue]
    else
      -- `fieldAmount` yields a value whenever it contributed no issue, so the
      -- default in `getD` is never exercised on this branch.
      Except.ok ⟨name, email, phone, amount.getD 0, message, source, hp⟩

structure BookingParsed where
  name : Option Str
  email : Option Str
  phone : Option Str
  service : Option Str
  date : Option Str
  time : Option Str
  message : Option Str
  source : Option Str
  hp : Option Str
deriving DecidableEq

/-- `publicBookingSchema.parse`. -/
def parseBooking (body : JObj) : Except (List ZIssue) BookingParsed :=
  match fieldString ("name".toList) true false 100 (body.get ("name".toList)),
      fieldString ("email".toList) true true 255 (body.get ("email".toList)),
      fieldString ("phone".toList) true false 30 (body.get ("phone".toList)),
      fieldString ("service".toList) true false 120 (body.get ("service".toList)),
      fieldString ("date".toList) true false 50 (body.get ("date".toList)),
      fieldString ("time".toList) true false 50 (body.get ("time".toList)),
      fieldString ("message".toList) true false 2000 (body.get ("message".toList)),
      fieldString ("source".toList) true false 100 (body.get ("source".toList)),
      fieldHp ("__hp".toList) (body.get ("__hp".toList)) with
  | (e1, name), (e2, email), (e3, phone), (e4, service), (e5, date), (e6, time),
      (e7, message), (e8, source), (e9, hp) =>
    if e1 ++ e2 ++ e3 ++ e4 ++ e5 ++ e6 ++ e7 ++ e8 ++ e9 ≠ [] then
      Except.error (e1 ++ e2 ++ e3 ++ e4 ++ e5 ++ e6 ++ e7 ++ e8 ++ e9)
    else if !(truthyStr name || truthyStr email || truthyStr phone) then
      Except.error [refineIssue]
    else
      Except.ok ⟨name, email, phone, service, date, time, message, source, hp⟩

structure FeedbackParsed where
  name : Option Str
  email : Option Str
  phone : Option Str
  message : Str
  rating : Option ℚ
  source : Option Str
  hp : Option Str
deriving DecidableEq

/-- `publicFeedbackSchema.parse` (`message` is required here). -/
def parseFeedback (body : JObj) : Except (List ZIssue) FeedbackParsed :=
  match fieldString ("name".toList) true false 100 (body.get ("name".toList)),
      fieldString ("email".toList) true true 255 (body.get ("email".toList)),
      fieldString ("phone".toList) true false 30 (body.get ("phone".toList)),
      fieldString ("message".toList) false false 2000 (body.get ("message".toList)),
      fieldRating ("rating".toList) (body.get ("rating".toList)),
      fieldString ("source".toList) true false 100 (body.get ("source".toList)),
      fieldHp ("__hp".toList) (body.get ("__hp".toList)) with
  | (e1, name), (e2, email), (e3, phone), (e4, message), (e5, rating), (e6, source),
      (e7, hp) =>
    if e1 ++ e2 ++ e3 ++ e4 ++ e5 ++ e6 ++ e7 ≠ [] then
      Except.error (e1 ++ e2 ++ e3 ++ e4 ++ e5 ++ e6 ++ e7)
    else if !(truthyStr name || truthyStr email || truthyStr phone) then
      Except.error [refineIssue]
    else
      -- the required `message` field yields a value whenever it contributed
      -- no issue, so the default in `getD` is never exercised here.
      Except.ok ⟨name, email, phone, message.getD [], rating, source, hp⟩

/-! ### The relational store

Rows of the Prisma models touched by the public pipeline, with the columns
the pipeline reads or writes. Serial ids are modelled with explicit
counters. `Contact.emailNormalized`/`phoneNormalized` are the columns
added by migration `20251230183000_add_contact_normalized_fields`; the
route handlers never set them, so route-created contacts carry `none`
there, and only `findOrCreateContact` fills them. -/

structure ContactRow where
  id : Nat
  projectId : Nat
  name : Str
  email : Option Str
  phone : Option Str
  notes : Option Str
  emailNormalized : Option Str
  phoneNormalized : Option Str
deriving DecidableEq

structure CaseRow where
  id : Nat
  projectId : Nat
  contactId : Option Nat
  publicFormId : Option Nat
  clientRequestId : Option Str
  title : Str
  description : Option Str
  status : Str
  source : Str
deriving DecidableEq

structure TransactionRow where
  id : Nat
  projectId : Nat
  contactId : Option Nat
  caseId : Option Nat
  publicFormId : Option Nat
  txType : Str
  amount : ℚ
  currency : Str
  category : Str
  description : Option Str
deriving DecidableEq

/-- A project row. Its free-form `config` is only consulted by the
pipeline for notification settings (a pure side effect, not modelled) and
the transaction-category taxonomy; we model the config-absent default,
under which `getTransactionCategoriesConfig` yields the built-in list and
the donation category resolves to code `"donation"`. -/
structure ProjectRow where
  id : Nat
  slug : Str
  publicKey : Str
deriving DecidableEq

structure PublicFormRow where
  id : Nat
  projectId : Nat
  formKey : Str
  isActive : Bool
deriving DecidableEq

structure AllowedOriginRow where
  projectId : Nat
  origin : Str
deriving DecidableEq

structure MembershipRow where
  userId : Nat
  projectId : Nat
deriving DecidableEq

/-- Modelled from the spec: the staff-authentication verifier is an
external collaborator ("a staff-authentication verifier that turns a
bearer token into a (user, tenant, membership) triple or rejects it",
§6); `jwt.verify` itself is a library call absent from `src/`. We model
the set of currently valid signed tokens as a table from token strings to
their payloads, mirroring the payload fields that
`src/middleware/auth.ts` reads. -/
structure SessionRow where
  token : Str
  userId : Nat
  projectId : Nat
deriving DecidableEq

structure DB where
  projects : List ProjectRow
  allowedOrigins : List AllowedOriginRow
  publicForms : List PublicFormRow
  contacts : List ContactRow
  cases : List CaseRow
  transactions : List TransactionRow
  memberships : List MembershipRow
  sessions : List SessionRow
  nextContactId : Nat
  nextCaseId : Nat
  nextTransactionId : Nat
deriving DecidableEq

/-- An incoming HTTP request as consumed by the route. -/
structure Request where
  projectSlug : Str
  formKey : Str
  headers : List (Str × Str)
  body : JObj
  method : Str
deriving DecidableEq


/-- Header and form-key names used by the route, as named constants so
statements and proofs can refer to them stably. -/
def hdrProjectKey : Str := "X-Project-Key".toList

/-- See `hdrProjectKey`. -/
def hdrOrigin : Str := "Origin".toList

/-- See `hdrProjectKey`. -/
def hdrReferer : Str := "Referer".toList

/-- See `hdrProjectKey`. -/
def hdrRequestId : Str := "X-Request-Id".toList

/-- See `hdrProjectKey`. -/
def hdrClientRequestId : Str := "X-Client-Request-Id".toList

/-- See `hdrProjectKey`. -/
def fkLead : Str := "lead".toList

/-- See `hdrProjectKey`. -/
def fkDonation : Str := "donation".toList

/-- See `hdrProjectKey`. -/
def fkBooking : Str := "booking".toList

/-- See `hdrProjectKey`. -/
def fkFeedback : Str := "feedback".toList

/-- See `hdrProjectKey`. -/
def bodyCRIKey : Str := "clientRequestId".toList

/-- Process environment switches read by the route. -/
structure Env where
  allowNoOrigin : Bool
deriving DecidableEq

/-- Whether the storage layer fails the case insert (respectively the
transaction insert inside the donation `$transaction`) with an
infrastructure error. The unique-constraint conflict is a different,
deterministic outcome and is modelled where it can occur (in the
concurrent model); these flags model the `catch` blocks' remaining,
non-`P2002` inputs. -/
structure Oracle where
  caseWriteFails : Bool
  txnWriteFails : Bool
deriving DecidableEq

/-- The oracle under which no storage write fails. -/
def okOracle : Oracle := ⟨false, false⟩

/-- `getHeader` of `src/routes/public.ts`: read a header and trim it.  The
source maps an absent or empty header to `undefined` and can return the
empty string for a whitespace-only header; every consumer treats the
empty string and `undefined` alike (JS truthiness), so both are `none`
here. -/
def getHeader (req : Request) (name : Str) : Option Str :=
  match req.headers.find? (fun p => p.1 == name) with
  | some p => if trim p.2 = [] then none else some (trim p.2)
  | none => none

/-- `new URL(referer).origin` for `scheme://authority/...` references;
`none` when the URL constructor would throw. Scheme/host case folding
and default-port stripping are not modelled (all origins in the theorems
are already canonical). -/
def splitScheme : Str → Option (Str × Str)
  | [] => none
  | ':' :: '/' :: '/' :: rest => some ([], rest)
  | c :: t =>
    match splitScheme t with
    | some (sch, rest) => some (c :: sch, rest)
    | none => none

/-- See `splitScheme`. -/
def parseUrlOrigin (ref : Str) : Option Str :=
  match splitScheme ref with
  | some (scheme, rest) =>
    if scheme = [] then none
    else some (scheme ++ (("://".toList) ++
      rest.takeWhile (fun c => !(c == '/') && !(c == '?') && !(c == '#'))))
  | none => none

/-- Outcome of the Trust Gate `requirePublicProject`. -/
inductive GateResult where
  | notFound
  | invalidKey
  | originRequired
  | originNotAllowed
  | ok (projectId : Nat) (publicKey : Str)
deriving DecidableEq

/-- `prisma.projectAllowedOrigin.findMany({ where: { projectId } })`
projected to the origin strings, as loaded by the gate. -/
def allowedOriginsOf (db : DB) (pid : Nat) : List Str :=
  (db.allowedOrigins.filter (fun r => r.projectId == pid)).map (fun r => r.origin)

/-- `requirePublicProject` of `src/routes/public.ts` (lines 72-133):
resolve the project by slug, compare `X-Project-Key` with the stored
public key, then — when the per-project allowlist is non-empty — require
the `Origin` header or the parsed `Referer` origin to be a member,
allowing header-less `GET`s (or any method under the
`PUBLIC_ALLOW_NO_ORIGIN` switch). The function reads no other header;
in particular it never consults `Authorization`. -/
def requirePublicProject (env : Env) (db : DB) (req : Request) : GateResult :=
  match db.projects.find? (fun p => p.slug == req.projectSlug) with
  | none => GateResult.notFound
  | some project =>
    match getHeader req hdrProjectKey with
    | none => GateResult.invalidKey
    | some projectKey =>
      if projectKey ≠ project.publicKey then GateResult.invalidKey
      else
        if allowedOriginsOf db project.id = [] then
          GateResult.ok project.id project.publicKey
        else
          let origin := getHeader req hdrOrigin
          let refOrigin := (getHeader req hdrReferer).bind parseUrlOrigin
          if origin = none ∧ refOrigin = none then
            if req.method = "GET".toList ∨ env.allowNoOrigin = true then
              GateResult.ok project.id project.publicKey
            else GateResult.originRequired
          else if ¬ ((match origin with
              | some o => (allowedOriginsOf db project.id).contains o
              | none => false) ||
            (match refOrigin with
              | some o => (allowedOriginsOf db project.id).contains o
              | none => false)) = true then
            GateResult.originNotAllowed
          else GateResult.ok project.id project.publicKey

/-- The staff-session validity the spec's "staff preview exception" (§4.4
step 4) speaks about, mirrored from `requireAuth` in
`src/middleware/auth.ts`: the bearer token decodes to a payload and the
(user, project) membership still exists. -/
def staffSessionValid (db : DB) (token : Str) (projectId : Nat) : Bool :=
  match db.sessions.find? (fun s => s.token == token) with
  | some s =>
    s.projectId == projectId &&
      (db.memberships.any (fun m => m.userId == s.userId && m.projectId == s.projectId))
  | none => false

/-- The response the route sends, projected onto status, the ids of the
entities it reports, the idempotent-replay flag, the honeypot marker and
the error payload. -/
structure Response where
  status : Nat
  contactId : Option Nat
  caseId : Option Nat
  transactionId : Option Nat
  idempotentFlag : Bool
  received : Bool
  errorMsg : Option Str
  details : List ZIssue
deriving DecidableEq

def errResponse (status : Nat) (msg : Str) : Response :=
  ⟨status, none, none, none, false, false, some msg, []⟩

def validationResponse (issues : List ZIssue) : Response :=
  ⟨400, none, none, none, false, false, some ("Validation error".toList), issues⟩

def honeypotResponse : Response :=
  ⟨202, none, none, none, false, true, none, []⟩

def replayResponse (c : CaseRow) (tx : Option TransactionRow) (flag : Bool) : Response :=
  ⟨200, c.contactId, some c.id, tx.map (fun t => t.id), flag, false, none, []⟩

def createdResponse (contact : ContactRow) (c : CaseRow)
    (tx : Option TransactionRow) : Response :=
  ⟨201, some contact.id, some c.id, tx.map (fun t => t.id), false, false, none, []⟩

/-- `prisma.case.findFirst({ where: { projectId, clientRequestId } })`. -/
def findCaseByCRI (db : DB) (pid : Nat) (t : Str) : Option CaseRow :=
  db.cases.find? (fun c => c.projectId == pid && c.clientRequestId == some t)

/-- `prisma.publicForm.findFirst({ where: { projectId, formKey, isActive: true } })`. -/
def findFormActive (db : DB) (pid : Nat) (fk : Str) : Option PublicFormRow :=
  db.publicForms.find? (fun f => f.projectId == pid && f.formKey == fk && f.isActive)

/-- `prisma.transaction.findFirst({ where: p, orderBy: { id: 'desc' } })`:
ids are assigned in insertion order, so the highest id is the last
matching row. -/
def lastTransaction (db : DB) (p : TransactionRow → Bool) : Option TransactionRow :=
  (db.transactions.filter p).getLast?

/-- The client request id: `X-Request-Id`, else `X-Client-Request-Id`,
else a string `clientRequestId` body field (trimmed, empty means
absent), capped at 128 characters (a longer token disables idempotency
for the request). -/
def requestCRI (req : Request) : Option Str :=
  match (match getHeader req hdrRequestId with
    | some h => some h
    | none => match getHeader req hdrClientRequestId with
      | some h => some h
      | none => match req.body.get bodyCRIKey with
        | JVal.str s => if trim s = [] then none else some (trim s)
        | _ => none) with
  | some s => if s.length ≤ 128 then some s else none
  | none => none

/-- Honeypot trigger: `parsed.__hp && parsed.__hp.trim().length > 0`. -/
def hpTriggered (hp : Option Str) : Bool :=
  match hp with
  | some s => !(s.isEmpty) && 0 < (trim s).length
  | none => false

/-- The lead handler's write phase: create the contact, then the case.
Reached only after the form checks and (when a token is present) after
the per-handler replay re-check found nothing, so in this sequential
model the case insert cannot hit the `(projectId, clientRequestId)`
unique constraint; the remaining failure input (the oracle flag) is an
infrastructure error, which the `catch` maps to a 500 — with the
already-committed contact staying in the store. -/
def leadCreate (oracle : Oracle) (db : DB) (pid : Nat) (cri : Option Str)
    (parsed : LeadParsed) (pf : PublicFormRow) : DB × Response :=
  let name := normalizeText parsed.name
  let email := normalizeText parsed.email
  let phone := normalizePhoneRoute parsed.phone
  let message := normalizeText parsed.message
  let source := normalizeText parsed.source
  let contact : ContactRow :=
    ⟨db.nextContactId, pid, computeContactName name email phone,
      email, phone, message, none, none⟩
  let db1 : DB := { db with
    contacts := db.contacts ++ [contact],
    nextContactId := db.nextContactId + 1 }
  if oracle.caseWriteFails then
    (db1, errResponse 500 ("Failed to create case".toList))
  else
    let cse : CaseRow :=
      ⟨db1.nextCaseId, pid, some contact.id, some pf.id, cri,
        "Новий лід з сайту".toList, message, "new".toList,
        source.getD ("widget".toList)⟩
    ({ db1 with cases := db1.cases ++ [cse], nextCaseId := db1.nextCaseId + 1 },
      createdResponse contact cse none)

/-- The lead branch of the POST handler (after gate and early replay):
parse, honeypot, project and active-form lookups, the per-handler replay
re-check (the source performs this identical read twice, lines 413-446;
with no write in between the second read returns the same row), then the
write phase. -/
def leadFlow (oracle : Oracle) (db : DB) (pid : Nat) (cri : Option Str)
    (body : JObj) : DB × Response :=
  match parseLead body with
  | Except.error issues => (db, validationResponse issues)
  | Except.ok parsed =>
    if hpTriggered parsed.hp then (db, honeypotResponse)
    else
      match db.projects.find? (fun p => p.id == pid) with
      | none => (db, errResponse 404 ("Project not found".toList))
      | some _ =>
        match findFormActive db pid fkLead with
        | none => (db, errResponse 410 ("Form is disabled".toList))
        | some pf =>
          match cri with
          | some t =>
            match findCaseByCRI db pid t with
            | some existing => (db, replayResponse existing none false)
            | none => leadCreate oracle db pid cri parsed pf
          | none => leadCreate oracle db pid cri parsed pf

/-- Case description of a donation:
`['Сума: ${amount} UAH'] ++ (message ? ['Коментар: ${message}'] : [])`
joined with `' | '`. The numeral rendering is Lean's rational printer; no
claim concerns these display strings. -/
def donationDescription (amount : ℚ) (message : Option Str) : Str :=
  List.intercalate (" | ".toList)
    ((["Сума: ".toList ++ (toString amount).toList ++ " UAH".toList]) ++
      (match message with
       | some m => ["Коментар: ".toList ++ m]
       | none => []))

/-- `detailsParts` of the booking handler, joined with `' | '`; the empty
join is stored as `null` (`description: details || null`). -/
def bookingDetails (service date time message : Option Str) : Option Str :=
  match List.intercalate (" | ".toList)
    ((match service with
      | some s => ["Послуга: ".toList ++ s]
      | none => []) ++
     (if date ≠ none ∨ time ≠ none then
        ["Коли: ".toList ++ (List.intercalate (" ".toList)
          ((match date with | some d => [d] | none => []) ++
           (match time with | some t => [t] | none => [])))]
      else []) ++
     (match message with
      | some m => ["Коментар: ".toList ++ m]
      | none => [])) with
  | [] => none
  | d => some d

/-- `detailParts` of the feedback handler: the rating line, then the
message, joined with `' | '`; the empty join becomes `null`. -/
def feedbackDetails (rating : Option ℚ) (message : Option Str) : Option Str :=
  match List.intercalate (" | ".toList)
    ((match rating with
      | some r => ["Оцінка: ".toList ++ (toString r).toList ++ "/5".toList]
      | none => []) ++
     (match message with
      | some m => ["Відгук: ".toList ++ m]
      | none => [])) with
  | [] => none
  | d => some d

/-- Raw-email contact lookup shared by the donation, booking and feedback
handlers: `if (email) contact = findFirst({ where: { projectId, email } })`
— the **raw** trimmed email, not the normalized one. -/
def findContactByRawEmail (db : DB) (pid : Nat) (email : Option Str) :
    Option ContactRow :=
  match email with
  | some e => db.contacts.find? (fun c => c.projectId == pid && c.email == some e)
  | none => none

/-- The contact row the donation/booking handlers create when the raw-email
lookup missed (`notes: message || null`). -/
def freshContact (db : DB) (pid : Nat) (name email phone message : Option Str) :
    ContactRow :=
  ⟨db.nextContactId, pid, computeContactName name email phone,
    email, phone, message, none, none⟩

/-- The donation write phase given the resolved contact and the store state
after the (possible) contact insert: one `$transaction` creating the case
and the transaction atomically — on failure neither is written, but the
contact insert has already committed outside of it. -/
def donationCreate (oracle : Oracle) (db1 : DB) (pid : Nat) (cri : Option Str)
    (parsed : DonationParsed) (pf : PublicFormRow) (contact : ContactRow) :
    DB × Response :=
  if oracle.caseWriteFails || oracle.txnWriteFails then
    (db1, errResponse 500 ("Failed to process donation".toList))
  else
    let cse : CaseRow :=
      ⟨db1.nextCaseId, pid, some contact.id, some pf.id, cri,
        "Нове пожертвування з сайту".toList,
        some (donationDescription parsed.amount (normalizeText parsed.message)),
        "new".toList,
        (normalizeText parsed.source).getD ("donation-widget".toList)⟩
    let tx : TransactionRow :=
      ⟨db1.nextTransactionId, pid, some contact.id, some cse.id,
        some pf.id, "income".toList, parsed.amount, "UAH".toList,
        "donation".toList, normalizeText parsed.message⟩
    ({ db1 with
        cases := db1.cases ++ [cse],
        nextCaseId := db1.nextCaseId + 1,
        transactions := db1.transactions ++ [tx],
        nextTransactionId := db1.nextTransactionId + 1 },
      createdResponse contact cse (some tx))

/-- The donation branch: parse, honeypot, project and active-form lookups,
the per-handler replay re-check (including the latest matching
transaction), raw-email contact lookup, contact creation when the lookup
missed, then the `$transaction` write phase. -/
def donationFlow (oracle : Oracle) (db : DB) (pid : Nat) (cri : Option Str)
    (body : JObj) : DB × Response :=
  match parseDonation body with
  | Except.error issues => (db, validationResponse issues)
  | Except.ok parsed =>
    if hpTriggered parsed.hp then (db, honeypotResponse)
    else
      match db.projects.find? (fun p => p.id == pid) with
      | none => (db, errResponse 404 ("Project not found".toList))
      | some _ =>
        match findFormActive db pid fkDonation with
        | none => (db, errResponse 410 ("Form is disabled".toList))
        | some pf =>
          match (match cri with
            | some t => findCaseByCRI db pid t
            | none => none) with
          | some existing =>
            (db, replayResponse existing
              (lastTransaction db (fun x => x.projectId == pid &&
                x.caseId == some existing.id && x.publicFormId == some pf.id))
              false)
          | none =>
            match findContactByRawEmail db pid (normalizeText parsed.email) with
            | some c => donationCreate oracle db pid cri parsed pf c
            | none =>
              donationCreate oracle
                { db with
                    contacts := db.contacts ++
                      [freshContact db pid (normalizeText parsed.name)
                        (normalizeText parsed.email)
                        (normalizePhoneRoute parsed.phone)
                        (normalizeText parsed.message)],
                    nextContactId := db.nextContactId + 1 }
                pid cri parsed pf
                (freshContact db pid (normalizeText parsed.name)
                  (normalizeText parsed.email)
                  (normalizePhoneRoute parsed.phone)
                  (normalizeText parsed.message))

/-- The booking write phase (plain `case.create`, no transaction row). -/
def bookingCreate (oracle : Oracle) (db1 : DB) (pid : Nat) (cri : Option Str)
    (parsed : BookingParsed) (pf : PublicFormRow) (contact : ContactRow) :
    DB × Response :=
  if oracle.caseWriteFails then
    (db1, errResponse 500 ("Failed to create case".toList))
  else
    let cse : CaseRow :=
      ⟨db1.nextCaseId, pid, some contact.id, some pf.id, cri,
        "Нове бронювання з сайту".toList,
        bookingDetails (normalizeText parsed.service)
          (normalizeText parsed.date) (normalizeText parsed.time)
          (normalizeText parsed.message),
        "new".toList,
        (normalizeText parsed.source).getD ("booking-widget".toList)⟩
    ({ db1 with cases := db1.cases ++ [cse], nextCaseId := db1.nextCaseId + 1 },
      createdResponse contact cse none)

/-- The booking branch (same contact handling as donation, no transaction). -/
def bookingFlow (oracle : Oracle) (db : DB) (pid : Nat) (cri : Option Str)
    (body : JObj) : DB × Response :=
  match parseBooking body with
  | Except.error issues => (db, validationResponse issues)
  | Except.ok parsed =>
    if hpTriggered parsed.hp then (db, honeypotResponse)
    else
      match db.projects.find? (fun p => p.id == pid) with
      | none => (db, errResponse 404 ("Project not found".toList))
      | some _ =>
        match findFormActive db pid fkBooking with
        | none => (db, errResponse 410 ("Form is disabled".toList))
        | some pf =>
          match (match cri with
            | some t => findCaseByCRI db pid t
            | none => none) with
          | some existing => (db, replayResponse existing none false)
          | none =>
            match findContactByRawEmail db pid (normalizeText parsed.email) with
            | some c => bookingCreate oracle db pid cri parsed pf c
            | none =>
              bookingCreate oracle
                { db with
                    contacts := db.contacts ++
                      [freshContact db pid (normalizeText parsed.name)
                        (normalizeText parsed.email)
                        (normalizePhoneRoute parsed.phone)
                        (normalizeText parsed.message)],
                    nextContactId := db.nextContactId + 1 }
                pid cri parsed pf
                (freshContact db pid (normalizeText parsed.name)
                  (normalizeText parsed.email)
                  (normalizePhoneRoute parsed.phone)
                  (normalizeText parsed.message))

/-- The feedback write phase. -/
def feedbackCreate (oracle : Oracle) (db1 : DB) (pid : Nat) (cri : Option Str)
    (parsed : FeedbackParsed) (pf : PublicFormRow) (contact : ContactRow) :
    DB × Response :=
  if oracle.caseWriteFails then
    (db1, errResponse 500 ("Failed to create case".toList))
  else
    let cse : CaseRow :=
      ⟨db1.nextCaseId, pid, some contact.id, some pf.id, cri,
        "Новий відгук з сайту".toList,
        feedbackDetails parsed.rating (normalizeText parsed.message),
        "new".toList,
        (normalizeText parsed.source).getD ("feedback-widget".toList)⟩
    ({ db1 with cases := db1.cases ++ [cse], nextCaseId := db1.nextCaseId + 1 },
      createdResponse contact cse none)

/-- The feedback branch: no per-handler replay re-check in the source;
contact notes are always `null` here. -/
def feedbackFlow (oracle : Oracle) (db : DB) (pid : Nat) (cri : Option Str)
    (body : JObj) : DB × Response :=
  match parseFeedback body with
  | Except.error issues => (db, validationResponse issues)
  | Except.ok parsed =>
    if hpTriggered parsed.hp then (db, honeypotResponse)
    else
      match db.projects.find? (fun p => p.id == pid) with
      | none => (db, errResponse 404 ("Project not found".toList))
      | some _ =>
        match findFormActive db pid fkFeedback with
        | none => (db, errResponse 410 ("Form is disabled".toList))
        | some pf =>
          match findContactByRawEmail db pid (normalizeText parsed.email) with
          | some c => feedbackCreate oracle db pid cri parsed pf c
          | none =>
            feedbackCreate oracle
              { db with
                  contacts := db.contacts ++
                    [freshContact db pid (normalizeText parsed.name)
                      (normalizeText parsed.email)
                      (normalizePhoneRoute parsed.phone) none],
                  nextContactId := db.nextContactId + 1 }
              pid cri parsed pf
              (freshContact db pid (normalizeText parsed.name)
                (normalizeText parsed.email)
                (normalizePhoneRoute parsed.phone) none)

/-- The unified POST handler `router.post('/forms/:projectSlug/:formKey')`
of `src/routes/public.ts`: Trust Gate, idempotency pre-check (an
existing case with the request's token is returned as a 200 replay with
`idempotent: true`, plus the latest transaction for donation), then the
per-form branch; unknown form keys give 404. Outbound notification mail
is a fire-and-forget side effect with no influence on the store or the
response, and is not modelled. -/
def handlePost (env : Env) (oracle : Oracle) (db : DB) (req : Request) :
    DB × Response :=
  match requirePublicProject env db req with
  | GateResult.notFound => (db, errResponse 404 ("Project not found".toList))
  | GateResult.invalidKey => (db, errResponse 403 ("Invalid project key".toList))
  | GateResult.originRequired =>
    (db, errResponse 403
      ("Origin is required for this project (allowlist enabled)".toList))
  | GateResult.originNotAllowed =>
    (db, errResponse 403 ("Origin/Referer not allowed for this project".toList))
  | GateResult.ok pid _ =>
    match (match requestCRI req with
      | some t => findCaseByCRI db pid t
      | none => none) with
    | some existing =>
      (db, replayResponse existing
        (if req.formKey = fkDonation then
          lastTransaction db (fun x => x.projectId == pid &&
            x.caseId == some existing.id)
         else none)
        true)
    | none =>
      if req.formKey = fkLead then
        leadFlow oracle db pid (requestCRI req) req.body
      else if req.formKey = fkDonation then
        donationFlow oracle db pid (requestCRI req) req.body
      else if req.formKey = fkBooking then
        bookingFlow oracle db pid (requestCRI req) req.body
      else if req.formKey = fkFeedback then
        feedbackFlow oracle db pid (requestCRI req) req.body
      else (db, errResponse 404 ("Unknown public form".toList))

/-! ### `findOrCreateContact` (the contact helper module, `src/unnamed/part_009`) -/

/-- JS falsiness of a nullable string column (`!contact.email`):
`null`/absent or the empty string. -/
def optFalsy (o : Option Str) : Bool :=
  match o with
  | none => true
  | some s => s.isEmpty

/-- The lookup of `findOrCreateContact`: by `(projectId, emailNormalized)`
first, then — when that found nothing — by `(projectId, phoneNormalized)`. -/
def focLookup (db : DB) (pid : Nat) (emailNorm phoneNorm : Option Str) :
    Option ContactRow :=
  match (match emailNorm with
    | some en => db.contacts.find?
        (fun c => c.projectId == pid && c.emailNormalized == some en)
    | none => none) with
  | some c => some c
  | none =>
    match phoneNorm with
    | some pn => db.contacts.find?
        (fun c => c.projectId == pid && c.phoneNormalized == some pn)
    | none => none

/-- The backfill update of `findOrCreateContact` (source lines 64-87): a
blank stored name is replaced by the computed default; a stored name that
is exactly the placeholder `'Unknown'` is replaced by a truthy given name;
email, phone, the normalized keys and notes are only filled when currently
falsy. The two source lines writing `data.name` are modelled with the
second (`if (!contact.name) data.name = desiredName`) taking precedence,
as the later assignment wins in JS. -/
def backfillContact (contact : ContactRow) (rawName rawEmail rawPhone : Option Str)
    (emailNorm phoneNorm : Option Str) (desiredName : Str)
    (desiredNotes : Option Str) : ContactRow :=
  { contact with
    name :=
      if contact.name = [] then desiredName
      else if truthyStr rawName = true ∧ contact.name = "Unknown".toList then
        (rawName.getD []).take 255
      else contact.name,
    email :=
      if truthyStr rawEmail = true ∧ optFalsy contact.email = true then
        some ((rawEmail.getD []).take 255)
      else contact.email,
    phone :=
      if truthyStr rawPhone = true ∧ optFalsy contact.phone = true then
        some ((rawPhone.getD []).take 50)
      else contact.phone,
    emailNormalized :=
      if truthyStr emailNorm = true ∧ optFalsy contact.emailNormalized = true then
        emailNorm
      else contact.emailNormalized,
    phoneNormalized :=
      if truthyStr phoneNorm = true ∧ optFalsy contact.phoneNormalized = true then
        phoneNorm
      else contact.phoneNormalized,
    notes :=
      if truthyStr desiredNotes = true ∧ optFalsy contact.notes = true then
        some ((desiredNotes.getD []).take 2000)
      else contact.notes }

/-- `findOrCreateContact(projectId, input)` of the contact helper module:
normalize, look up by normalized email then normalized phone, backfill
when found, create otherwise. The concurrent unique-violation recovery
(source lines 102-119) is unreachable in this sequential model because
creation only happens after both lookups missed. -/
def findOrCreateContact (db : DB) (pid : Nat)
    (name email phone notes : Option Str) : DB × ContactRow :=
  let rawName := match name with
    | some s => if s = [] then none else some (trim s)
    | none => none
  let emailNorm := normalizeEmailOptional email
  let phoneNorm := normalizePhoneOptional phone
  let rawEmail := email.map trim
  let rawPhone := phone.map trim
  let desiredName := computeContactName rawName rawEmail rawPhone
  match focLookup db pid emailNorm phoneNorm with
  | some contact =>
    let c2 := backfillContact contact rawName rawEmail rawPhone emailNorm
      phoneNorm desiredName notes
    ({ db with contacts := (db.contacts.map
        (fun c => if c.id == contact.id && c.projectId == pid then c2 else c)) },
      c2)
  | none =>
    let c : ContactRow :=
      ⟨db.nextContactId, pid, desiredName,
        if truthyStr rawEmail then some ((rawEmail.getD []).take 255) else none,
        if truthyStr rawPhone then some ((rawPhone.getD []).take 50) else none,
        if truthyStr notes then some ((notes.getD []).take 2000) else none,
        emailNorm, phoneNorm⟩
    ({ db with
        contacts := db.contacts ++ [c],
        nextContactId := db.nextContactId + 1 }, c)

/-! ### The concurrent idempotency model (C1)

Every form branch of the POST handler runs the same idempotency skeleton
against the `Case` table (`src/routes/public.ts`): a read looking for an
existing case with the request's `(projectId, clientRequestId)`; if it
missed, validation/contact work that never touches that key; then
`case.create`, whose insert is guarded by the Postgres unique index
`Case_projectId_clientRequestId_key` (an atomic check-then-insert); a
`P2002` unique violation is caught and answered by re-reading the key and
returning the row found (the 500 fallback fires only when that re-read
finds nothing). Requests interleave arbitrarily; the store only ever
appends case rows (nothing in this subsystem deletes or rewrites them). -/

namespace Conc

/-- Where one in-flight tokened submission stands. -/
inductive Phase where
  | start
  | work
  | conflict
  | responded (status : Nat) (c : CaseRow)
  | failed
deriving DecidableEq

/-- One in-flight submission carrying an idempotency token. -/
structure CReq where
  projectId : Nat
  token : Str
  phase : Phase
deriving DecidableEq

/-- The shared store (the `Case` table with its serial id counter) and the
in-flight requests. -/
structure Sys where
  cases : List CaseRow
  nextId : Nat
  reqs : List CReq
deriving DecidableEq

/-- The match condition of the unique index / the `findFirst` `where`
clause: same project, same non-null `clientRequestId`. -/
def keyMatch (p : Nat) (t : Str) (c : CaseRow) : Bool :=
  c.projectId == p && c.clientRequestId == some t

def findKey (cs : List CaseRow) (p : Nat) (t : Str) : Option CaseRow :=
  cs.find? (keyMatch p t)

/-- How many case rows carry the key `(p, t)`. -/
def countKey (cs : List CaseRow) (p : Nat) (t : Str) : Nat :=
  (cs.filter (keyMatch p t)).length

/-- The case row a winning create inserts. The non-key business columns
(title, contact, description, ...) differ per form and play no part in
the uniqueness invariant; the model leaves them empty. -/
def mkCase (id p : Nat) (t : Str) : CaseRow :=
  ⟨id, p, none, none, some t, [], none, [], []⟩

/-- One scheduler step: some request advances by one database interaction.
`lookupHit`/`lookupMiss` are the pre-create read; `createOk` is the
insert succeeding under the unique index (atomically checking the key);
`createConflict` is the insert losing to the index (`P2002`); `rereadHit`
and `rereadMiss` are the recovery read in the `catch` block. -/
inductive Step : Sys → Sys → Prop where
  | lookupHit (s : Sys) (i : Nat) (r : CReq) (c : CaseRow) :
      s.reqs[i]? = some r → r.phase = Phase.start →
      findKey s.cases r.projectId r.token = some c →
      Step s { s with reqs := s.reqs.set i { r with phase := Phase.responded 200 c } }
  | lookupMiss (s : Sys) (i : Nat) (r : CReq) :
      s.reqs[i]? = some r → r.phase = Phase.start →
      findKey s.cases r.projectId r.token = none →
      Step s { s with reqs := s.reqs.set i { r with phase := Phase.work } }
  | createOk (s : Sys) (i : Nat) (r : CReq) :
      s.reqs[i]? = some r → r.phase = Phase.work →
      findKey s.cases r.projectId r.token = none →
      Step s
        { cases := s.cases ++ [mkCase s.nextId r.projectId r.token],
          nextId := s.nextId + 1,
          reqs := s.reqs.set i
            { r with phase := Phase.responded 201 (mkCase s.nextId r.projectId r.token) } }
  | createConflict (s : Sys) (i : Nat) (r : CReq) (c : CaseRow) :
      s.reqs[i]? = some r → r.phase = Phase.work →
      findKey s.cases r.projectId r.token = some c →
      Step s { s with reqs := s.reqs.set i { r with phase := Phase.conflict } }
  | rereadHit (s : Sys) (i : Nat) (r : CReq) (c : CaseRow) :
      s.reqs[i]? = some r → r.phase = Phase.conflict →
      findKey s.cases r.projectId r.token = some c →
      Step s { s with reqs := s.reqs.set i { r with phase := Phase.responded 200 c } }
  | rereadMiss (s : Sys) (i : Nat) (r : CReq) :
      s.reqs[i]? = some r → r.phase = Phase.conflict →
      findKey s.cases r.projectId r.token = none →
      Step s { s with reqs := s.reqs.set i { r with phase := Phase.failed } }

/-- Arbitrary interleavings. -/
def Reach : Sys → Sys → Prop := Relation.ReflTransGen Step

/-- The initial state for a batch of tokened submissions: an empty `Case`
table and every request about to run its first read. -/
def initSys (reqs0 : List (Nat × Str)) : Sys :=
  ⟨[], 1, reqs0.map (fun pr => ⟨pr.1, pr.2, Phase.start⟩)⟩

/-- Per-request part of the inductive invariant. -/
def reqOk (s : Sys) (r : CReq) : Prop :=
  (∀ st c, r.phase = Phase.responded st c →
    c ∈ s.cases ∧ c.projectId = r.projectId ∧ c.clientRequestId = some r.token) ∧
  (r.phase = Phase.conflict → ∃ c ∈ s.cases, keyMatch r.projectId r.token c = true) ∧
  r.phase ≠ Phase.failed

/-- The inductive invariant: the unique index holds on the table, and every
request's progress is consistent with the table. -/
def Inv (s : Sys) : Prop :=
  (∀ p t, countKey s.cases p t ≤ 1) ∧ (∀ r ∈ s.reqs, reqOk s r)

theorem findKey_mem {cs : List CaseRow} {p : Nat} {t : Str} {c : CaseRow}
    (h : findKey cs p t = some c) : c ∈ cs ∧ keyMatch p t c = true :=
  ⟨List.mem_of_find?_eq_some h, List.find?_some h⟩

theorem countKey_zero_of_findKey_none {cs : List CaseRow} {p : Nat} {t : Str}
    (h : findKey cs p t = none) : countKey cs p t = 0 := by
  unfold countKey
  rw [List.length_eq_zero]
  rw [List.filter_eq_nil_iff]
  intro a ha
  have := List.find?_eq_none.mp h a ha
  simpa using this

theorem countKey_append (cs : List CaseRow) (x : CaseRow) (p : Nat) (t : Str) :
    countKey (cs ++ [x]) p t
      = countKey cs p t + (if keyMatch p t x = true then 1 else 0) := by
  unfold countKey
  rw [List.filter_append, List.length_append]
  congr 1
  by_cases hx : keyMatch p t x = true
  · simp [hx]
  · simp [hx]

theorem eq_of_mem_of_length_le_one {α : Type} {l : List α} {a b : α}
    (hl : l.length ≤ 1) (ha : a ∈ l) (hb : b ∈ l) : a = b := by
  match l with
  | [] => exact absurd ha (List.not_mem_nil a)
  | [x] =>
    rw [List.mem_singleton] at ha hb
    rw [ha, hb]
  | x :: y :: t => simp at hl

theorem mkCase_key (id p : Nat) (t : Str) :
    keyMatch p t (mkCase id p t) = true := by
  simp [keyMatch, mkCase]

/-- The invariant is preserved by every step. -/
theorem inv_step {s s2 : Sys} (hs : Inv s) (h : Step s s2) : Inv s2 := by
  obtain ⟨huniq, hreqs⟩ := hs
  cases h with
  | lookupHit i r c hget hph hfind =>
    refine ⟨huniq, ?_⟩
    intro r2 hr2
    rcases List.mem_or_eq_of_mem_set hr2 with hr2 | rfl
    · exact hreqs r2 hr2
    · obtain ⟨hmem, hkey⟩ := findKey_mem hfind
      refine ⟨?_, ?_, ?_⟩
      · intro st c2 hc2
        obtain ⟨rfl, rfl⟩ := by
          simpa [Phase.responded.injEq] using hc2
        simp only [keyMatch, Bool.and_eq_true, beq_iff_eq] at hkey
        exact ⟨hmem, hkey.1, hkey.2⟩
      · intro hph2
        simp at hph2
      · simp
  | lookupMiss i r hget hph hfind =>
    refine ⟨huniq, ?_⟩
    intro r2 hr2
    rcases List.mem_or_eq_of_mem_set hr2 with hr2 | rfl
    · exact hreqs r2 hr2
    · exact ⟨fun st c2 hc2 => by simp at hc2, fun hph2 => by simp at hph2, by simp⟩
  | createOk i r hget hph hfind =>
    constructor
    · intro p t
      rw [countKey_append]
      by_cases hk : keyMatch p t (mkCase s.nextId r.projectId r.token) = true
      · have hz : countKey s.cases p t = 0 := by
          simp only [keyMatch, mkCase, Bool.and_eq_true, beq_iff_eq] at hk
          obtain ⟨rfl, ht⟩ := hk
          obtain rfl : t = r.token := by simpa using ht.symm
          exact countKey_zero_of_findKey_none hfind
        rw [hz, if_pos hk]
      · rw [if_neg hk]
        exact Nat.le_trans (Nat.le_add_right _ 0) (by simpa using huniq p t)
    · intro r2 hr2
      rcases List.mem_or_eq_of_mem_set hr2 with hr2 | rfl
      · obtain ⟨ha, hb, hc⟩ := hreqs r2 hr2
        refine ⟨?_, ?_, hc⟩
        · intro st c2 hc2
          obtain ⟨hmem, h1, h2⟩ := ha st c2 hc2
          exact ⟨List.mem_append_left _ hmem, h1, h2⟩
        · intro hph2
          obtain ⟨c2, hmem, hk⟩ := hb hph2
          exact ⟨c2, List.mem_append_left _ hmem, hk⟩
      · refine ⟨?_, ?_, ?_⟩
        · intro st c2 hc2
          obtain ⟨rfl, rfl⟩ := by
            simpa [Phase.responded.injEq] using hc2
          refine ⟨List.mem_append_right _ (by simp), by simp [mkCase], by simp [mkCase]⟩
        · intro hph2
          simp at hph2
        · simp
  | createConflict i r c hget hph hfind =>
    refine ⟨huniq, ?_⟩
    intro r2 hr2
    rcases List.mem_or_eq_of_mem_set hr2 with hr2 | rfl
    · exact hreqs r2 hr2
    · obtain ⟨hmem, hkey⟩ := findKey_mem hfind
      exact ⟨fun st c2 hc2 => by simp at hc2,
        fun _ => ⟨c, hmem, hkey⟩, by simp⟩
  | rereadHit i r c hget hph hfind =>
    refine ⟨huniq, ?_⟩
    intro r2 hr2
    rcases List.mem_or_eq_of_mem_set hr2 with hr2 | rfl
    · exact hreqs r2 hr2
    · obtain ⟨hmem, hkey⟩ := findKey_mem hfind
      refine ⟨?_, ?_, ?_⟩
      · intro st c2 hc2
        obtain ⟨rfl, rfl⟩ := by
          simpa [Phase.responded.injEq] using hc2
        simp only [keyMatch, Bool.and_eq_true, beq_iff_eq] at hkey
        exact ⟨hmem, hkey.1, hkey.2⟩
      · intro hph2
        simp at hph2
      · simp
  | rereadMiss i r hget hph hfind =>
    exfalso
    obtain ⟨_, hconf, _⟩ := hreqs r (List.getElem?_mem hget)
    obtain ⟨c, hmem, hk⟩ := hconf hph
    have : findKey s.cases r.projectId r.token ≠ none := by
      intro hn
      have := List.find?_eq_none.mp hn c hmem
      exact this hk
    exact this hfind

/-- The invariant holds initially. -/
theorem inv_init (reqs0 : List (Nat × Str)) : Inv (initSys reqs0) := by
  constructor
  · intro p t
    simp [countKey, initSys]
  · intro r hr
    simp only [initSys, List.mem_map] at hr
    obtain ⟨pr, _, rfl⟩ := hr
    exact ⟨fun st c hc => by simp at hc, fun hc => by simp at hc, by simp⟩

/-- The invariant holds in every reachable state. -/
theorem inv_reach {s0 s : Sys} (h0 : Inv s0) (h : Reach s0 s) : Inv s := by
  induction h with
  | refl => exact h0
  | tail _ hstep ih => exact inv_step ih hstep

end Conc

/-! ### C1: at most one Case per (tenant, token), every caller sees it -/

/-- C1: for every tenant and client-supplied idempotency token, in every
interleaving of any number of submissions, at most one Case row ever
carries that `(projectId, clientRequestId)` key; no request ends in the
unrecovered-500 state (a loser of the create race always finds the
winning row when re-reading); every responded request reports a case
that is in the table under its own key; and any two responders for the
same (tenant, token) report the same case. -/
theorem claim_C1_idempotency (reqs0 : List (Nat × Str)) (s : Conc.Sys)
    (h : Conc.Reach (Conc.initSys reqs0) s) :
    (∀ p t, Conc.countKey s.cases p t ≤ 1) ∧
    (∀ r ∈ s.reqs, r.phase ≠ Conc.Phase.failed) ∧
    (∀ r ∈ s.reqs, ∀ st c, r.phase = Conc.Phase.responded st c →
      c ∈ s.cases ∧ c.projectId = r.projectId ∧ c.clientRequestId = some r.token) ∧
    (∀ r ∈ s.reqs, ∀ r2 ∈ s.reqs, ∀ st st2 c c2,
      r.phase = Conc.Phase.responded st c → r2.phase = Conc.Phase.responded st2 c2 →
      r.projectId = r2.projectId → r.token = r2.token → c = c2) := by
  obtain ⟨huniq, hreqs⟩ := Conc.inv_reach (Conc.inv_init reqs0) h
  refine ⟨huniq, ?_, ?_, ?_⟩
  · intro r hr
    exact (hreqs r hr).2.2
  · intro r hr st c hc
    exact (hreqs r hr).1 st c hc
  · intro r hr r2 hr2 st st2 c c2 hc hc2 hp ht
    obtain ⟨hmem, hpc, htc⟩ := (hreqs r hr).1 st c hc
    obtain ⟨hmem2, hpc2, htc2⟩ := (hreqs r2 hr2).1 st2 c2 hc2
    have hk : Conc.keyMatch r.projectId r.token c = true := by
      simp [Conc.keyMatch, hpc, htc]
    have hk2 : Conc.keyMatch r.projectId r.token c2 = true := by
      simp [Conc.keyMatch, hpc2, htc2, hp, ht]
    have hf : c ∈ s.cases.filter (Conc.keyMatch r.projectId r.token) :=
      List.mem_filter.mpr ⟨hmem, hk⟩
    have hf2 : c2 ∈ s.cases.filter (Conc.keyMatch r.projectId r.token) :=
      List.mem_filter.mpr ⟨hmem2, hk2⟩
    exact Conc.eq_of_mem_of_length_le_one (huniq r.projectId r.token) hf hf2

/-- The token used in the concrete C1 race. -/
def wTok : Str := "tok".toList

/-- Two concurrent submissions of the same (tenant 1, token) pair. -/
def wReqs0 : List (Nat × Str) := [(1, wTok), (1, wTok)]

/-- The state after the concrete race: request 0 created the case and
answered 201; request 1 lost the insert race, re-read and answered 200
with the same row. -/
def wFinal : Conc.Sys :=
  ⟨[Conc.mkCase 1 1 wTok], 2,
    [⟨1, wTok, Conc.Phase.responded 201 (Conc.mkCase 1 1 wTok)⟩,
     ⟨1, wTok, Conc.Phase.responded 200 (Conc.mkCase 1 1 wTok)⟩]⟩

theorem wTrace : Conc.Reach (Conc.initSys wReqs0) wFinal := by
  have h1 : Conc.Step (Conc.initSys wReqs0)
      ⟨[], 1, [⟨1, wTok, Conc.Phase.work⟩, ⟨1, wTok, Conc.Phase.start⟩]⟩ :=
    Conc.Step.lookupMiss (Conc.initSys wReqs0) 0 ⟨1, wTok, Conc.Phase.start⟩
      (by decide) rfl (by decide)
  have h2 : Conc.Step
      (⟨[], 1, [⟨1, wTok, Conc.Phase.work⟩, ⟨1, wTok, Conc.Phase.start⟩]⟩ : Conc.Sys)
      ⟨[], 1, [⟨1, wTok, Conc.Phase.work⟩, ⟨1, wTok, Conc.Phase.work⟩]⟩ :=
    Conc.Step.lookupMiss _ 1 ⟨1, wTok, Conc.Phase.start⟩ (by decide) rfl (by decide)
  have h3 : Conc.Step
      (⟨[], 1, [⟨1, wTok, Conc.Phase.work⟩, ⟨1, wTok, Conc.Phase.work⟩]⟩ : Conc.Sys)
      ⟨[Conc.mkCase 1 1 wTok], 2,
        [⟨1, wTok, Conc.Phase.responded 201 (Conc.mkCase 1 1 wTok)⟩,
         ⟨1, wTok, Conc.Phase.work⟩]⟩ :=
    Conc.Step.createOk _ 0 ⟨1, wTok, Conc.Phase.work⟩ (by decide) rfl (by decide)
  have h4 : Conc.Step
      (⟨[Conc.mkCase 1 1 wTok], 2,
        [⟨1, wTok, Conc.Phase.responded 201 (Conc.mkCase 1 1 wTok)⟩,
         ⟨1, wTok, Conc.Phase.work⟩]⟩ : Conc.Sys)
      ⟨[Conc.mkCase 1 1 wTok], 2,
        [⟨1, wTok, Conc.Phase.responded 201 (Conc.mkCase 1 1 wTok)⟩,
         ⟨1, wTok, Conc.Phase.conflict⟩]⟩ :=
    Conc.Step.createConflict _ 1 ⟨1, wTok, Conc.Phase.work⟩ (Conc.mkCase 1 1 wTok)
      (by decide) rfl (by decide)
  have h5 : Conc.Step
      (⟨[Conc.mkCase 1 1 wTok], 2,
        [⟨1, wTok, Conc.Phase.responded 201 (Conc.mkCase 1 1 wTok)⟩,
         ⟨1, wTok, Conc.Phase.conflict⟩]⟩ : Conc.Sys)
      wFinal :=
    Conc.Step.rereadHit _ 1 ⟨1, wTok, Conc.Phase.conflict⟩ (Conc.mkCase 1 1 wTok)
      (by decide) rfl (by decide)
  exact Relation.ReflTransGen.head h1 (Relation.ReflTransGen.head h2
    (Relation.ReflTransGen.head h3 (Relation.ReflTransGen.head h4
      (Relation.ReflTransGen.head h5 Relation.ReflTransGen.refl))))

/-- Witness for C1: the race of two same-token submissions ends with one
case row for the key and the loser's 200 reply reporting exactly the row
the winner created. -/
theorem claim_C1_idempotency_witness :
    Conc.countKey wFinal.cases 1 wTok ≤ 1 ∧
      Conc.mkCase 1 1 wTok ∈ wFinal.cases := by
  have h := claim_C1_idempotency wReqs0 wFinal wTrace
  refine ⟨h.1 1 wTok, ?_⟩
  have hmem : (⟨1, wTok, Conc.Phase.responded 200 (Conc.mkCase 1 1 wTok)⟩ : Conc.CReq)
      ∈ wFinal.reqs := by decide
  exact (h.2.2.1 _ hmem 200 (Conc.mkCase 1 1 wTok) rfl).1

/-! ### Concrete fixtures shared by the remaining claims -/

def cEnv : Env := ⟨false⟩

def cForms : List PublicFormRow :=
  [⟨1, 1, "lead".toList, true⟩, ⟨2, 1, "donation".toList, true⟩,
   ⟨3, 1, "booking".toList, true⟩, ⟨4, 1, "feedback".toList, true⟩]

/-- A tenant `acme` with public key `k1`, all four default forms active,
and an otherwise empty store. -/
def cDb0 : DB :=
  ⟨[⟨1, "acme".toList, "k1".toList⟩], [], cForms, [], [], [], [], [], 1, 1, 1⟩

def cHeaders : List (Str × Str) := [("X-Project-Key".toList, "k1".toList)]

def leadReq (body : JObj) : Request :=
  ⟨"acme".toList, "lead".toList, cHeaders, body, "POST".toList⟩

def donationReq (body : JObj) : Request :=
  ⟨"acme".toList, "donation".toList, cHeaders, body, "POST".toList⟩

/-! ### C2: atomicity of contact + case creation -/

def c2Body : JObj := [(("name".toList), JVal.str ("Ann".toList))]

/-- C2 counterexample: on the lead form, when the case insert fails (the
500 `Failed to create case` path), the freshly created contact has
already been committed outside any transaction and stays visible in
storage with no case at all — contradicting the claim that contact and
case creation form one atomic unit. -/
theorem claim_C2_counterexample :
    (handlePost cEnv ⟨true, false⟩ cDb0 (leadReq c2Body)).2.status = 500 ∧
      (handlePost cEnv ⟨true, false⟩ cDb0 (leadReq c2Body)).2.errorMsg
        = some ("Failed to create case".toList) ∧
      (handlePost cEnv ⟨true, false⟩ cDb0 (leadReq c2Body)).1.contacts.length = 1 ∧
      (handlePost cEnv ⟨true, false⟩ cDb0 (leadReq c2Body)).1.cases = [] ∧
      (handlePost cEnv ⟨true, false⟩ cDb0 (leadReq c2Body)).1.transactions = [] := by
  decide

/-! ### C3: there is no staff-preview bypass in the Trust Gate -/

/-- Tenant `acme` with a one-entry allowlist, a staff user 7 with a
membership and a currently valid session token `stafftok`. -/
def c3Db : DB :=
  ⟨[⟨1, "acme".toList, "k1".toList⟩],
    [⟨1, "https://good.example".toList⟩], cForms, [], [], [],
    [⟨7, 1⟩], [⟨"stafftok".toList, 7, 1⟩], 1, 1, 1⟩

/-- A submission with the correct capability key, a disallowed Origin and
a bearer token of a valid staff session of the addressed tenant. -/
def c3Req : Request :=
  ⟨"acme".toList, "lead".toList,
    [(("X-Project-Key".toList), "k1".toList),
     (("Origin".toList), "https://evil.example".toList),
     (("Authorization".toList), "Bearer stafftok".toList)],
    [(("name".toList), JVal.str ("Ann".toList))], "POST".toList⟩

/-- C3 counterexample: the bearer token decodes to a valid staff session
of the addressed tenant with an existing membership, the allowlist is
non-empty and the Origin matches no entry — yet the gate rejects the
request with 403: `requirePublicProject` never reads `Authorization`, so
there is no staff-preview bypass. -/
theorem claim_C3_counterexample :
    staffSessionValid c3Db ("stafftok".toList) 1 = true ∧
      allowedOriginsOf c3Db 1 ≠ [] ∧
      getHeader c3Req ("Authorization".toList) = some ("Bearer stafftok".toList) ∧
      requirePublicProject cEnv c3Db c3Req = GateResult.originNotAllowed ∧
      (handlePost cEnv okOracle c3Db c3Req).2.status = 403 := by
  decide

/-! ### C4: identity resolution is not case-insensitive in the routes -/

def c4Body1 : JObj :=
  [(("name".toList), JVal.str ("Case Test".toList)),
   (("email".toList), JVal.str ("CaseTest@Example.com".toList)),
   (("message".toList), JVal.str ("first".toList))]

def c4Body2 : JObj :=
  [(("name".toList), JVal.str ("Case Test 2".toList)),
   (("email".toList), JVal.str ("casetest@example.com".toList)),
   (("message".toList), JVal.str ("second".toList))]

/-- C4, the repo's own smoke-test scenario (`scripts/smoke.sh`): two lead
submissions whose emails agree up to letter casing (their normalized
forms are equal) produce **two different** contacts — the lead handler
never looks an existing contact up at all, so the second submission gets
contact id 2 where the claim (and the smoke test's hard assertion)
demand id 1 again. -/
theorem claim_C4_codebug :
    normalizeEmail ("CaseTest@Example.com".toList)
        = normalizeEmail ("casetest@example.com".toList) ∧
      (handlePost cEnv okOracle cDb0 (leadReq c4Body1)).2.contactId = some 1 ∧
      (handlePost cEnv okOracle
          (handlePost cEnv okOracle cDb0 (leadReq c4Body1)).1
          (leadReq c4Body2)).2.contactId = some 2 ∧
      (handlePost cEnv okOracle
          (handlePost cEnv okOracle cDb0 (leadReq c4Body1)).1
          (leadReq c4Body2)).1.contacts.length = 2 := by
  decide

/-! ### C5: the missing-amount error is not `"Required"` -/

def c5Body : JObj :=
  [(("name".toList), JVal.str ("Test User".toList)),
   (("email".toList), JVal.str ("test@example.com".toList)),
   (("comment".toList), JVal.str ("no amount".toList))]

/-- C5 counterexample: submitting the donation form without `amount`
does return 400 with a structured detail list, but the single detail
entry carries `path = ["amount"]` (there is no `field` key on zod
issues) and the message `"Expected number, received nan"` —
`z.coerce.number()` coerces `undefined` to `NaN` before the type check,
so the message is never `"Required"`. -/
theorem claim_C5_counterexample :
    (handlePost cEnv okOracle cDb0 (donationReq c5Body)).2.status = 400 ∧
      (handlePost cEnv okOracle cDb0 (donationReq c5Body)).2.details
        = [⟨["amount".toList], "Expected number, received nan".toList⟩] ∧
      (¬ ∃ i ∈ (handlePost cEnv okOracle cDb0 (donationReq c5Body)).2.details,
        i.message = "Required".toList) := by
  decide

/-! ### Gate lemmas, C6 and the amended C3 -/

theorem gate_originNotAllowed (env : Env) (db : DB) (req : Request)
    (project : ProjectRow) (origin : Str)
    (hfind : db.projects.find? (fun p => p.slug == req.projectSlug) = some project)
    (hkey : getHeader req hdrProjectKey = some project.publicKey)
    (hallow : allowedOriginsOf db project.id ≠ [])
    (horigin : getHeader req hdrOrigin = some origin)
    (hmiss : origin ∉ allowedOriginsOf db project.id)
    (hrefmiss : ∀ ro, (getHeader req hdrReferer).bind parseUrlOrigin = some ro →
      ro ∉ allowedOriginsOf db project.id) :
    requirePublicProject env db req = GateResult.originNotAllowed := by
  rcases href : (getHeader req hdrReferer).bind parseUrlOrigin with _ | ro
  · simp [requirePublicProject, hfind, hkey, hallow, horigin, href, hmiss]
  · have hro := hrefmiss ro href
    simp [requirePublicProject, hfind, hkey, hallow, horigin, href, hmiss, hro]

theorem gate_ok_of_empty_allowlist (env : Env) (db : DB) (req : Request)
    (project : ProjectRow)
    (hfind : db.projects.find? (fun p => p.slug == req.projectSlug) = some project)
    (hkey : getHeader req hdrProjectKey = some project.publicKey)
    (hallow : allowedOriginsOf db project.id = []) :
    requirePublicProject env db req = GateResult.ok project.id project.publicKey := by
  simp [requirePublicProject, hfind, hkey, hallow]

theorem handlePost_403_of_originNotAllowed (env : Env) (oracle : Oracle)
    (db : DB) (req : Request)
    (h : requirePublicProject env db req = GateResult.originNotAllowed) :
    (handlePost env oracle db req).2.status = 403 := by
  unfold handlePost
  rw [h]
  rfl

theorem leadFlow_status_ne_403 (oracle : Oracle) (db : DB) (pid : Nat)
    (cri : Option Str) (body : JObj) :
    (leadFlow oracle db pid cri body).2.status ≠ 403 := by
  unfold leadFlow leadCreate
  repeat' split
  all_goals dsimp only [validationResponse, honeypotResponse, errResponse,
    replayResponse, createdResponse]
  all_goals omega


theorem donationFlow_status_ne_403 (oracle : Oracle) (db : DB) (pid : Nat)
    (cri : Option Str) (body : JObj) :
    (donationFlow oracle db pid cri body).2.status ≠ 403 := by
  unfold donationFlow donationCreate
  repeat' split
  all_goals dsimp only [validationResponse, honeypotResponse, errResponse,
    replayResponse, createdResponse]
  all_goals omega

theorem bookingFlow_status_ne_403 (oracle : Oracle) (db : DB) (pid : Nat)
    (cri : Option Str) (body : JObj) :
    (bookingFlow oracle db pid cri body).2.status ≠ 403 := by
  unfold bookingFlow bookingCreate
  repeat' split
  all_goals dsimp only [validationResponse, honeypotResponse, errResponse,
    replayResponse, createdResponse]
  all_goals omega

theorem feedbackFlow_status_ne_403 (oracle : Oracle) (db : DB) (pid : Nat)
    (cri : Option Str) (body : JObj) :
    (feedbackFlow oracle db pid cri body).2.status ≠ 403 := by
  unfold feedbackFlow feedbackCreate
  repeat' split
  all_goals dsimp only [validationResponse, honeypotResponse, errResponse,
    replayResponse, createdResponse]
  all_goals omega

theorem handlePost_ok_status_ne_403 (env : Env) (oracle : Oracle) (db : DB)
    (req : Request) (pid : Nat) (pk : Str)
    (hgate : requirePublicProject env db req = GateResult.ok pid pk) :
    (handlePost env oracle db req).2.status ≠ 403 := by
  unfold handlePost
  rw [hgate]
  dsimp only
  cases hcri : requestCRI req with
  | none =>
    dsimp only
    repeat' split
    · exact leadFlow_status_ne_403 _ _ _ _ _
    · exact donationFlow_status_ne_403 _ _ _ _ _
    · exact bookingFlow_status_ne_403 _ _ _ _ _
    · exact feedbackFlow_status_ne_403 _ _ _ _ _
    · dsimp only [errResponse]
      omega
  | some t =>
    dsimp only
    cases hfc : findCaseByCRI db pid t with
    | some existing =>
      dsimp only [replayResponse]
      omega
    | none =>
      dsimp only
      repeat' split
      · exact leadFlow_status_ne_403 _ _ _ _ _
      · exact donationFlow_status_ne_403 _ _ _ _ _
      · exact bookingFlow_status_ne_403 _ _ _ _ _
      · exact feedbackFlow_status_ne_403 _ _ _ _ _
      · dsimp only [errResponse]
        omega

/-- C6: with a correct capability key, a non-empty allowlist and an
Origin (and Referer origin, when parseable) matching no allowlist entry,
the gate rejects with 403; the same correct-key request against a tenant
with an empty allowlist passes the gate (and the response is never a
gate rejection). -/
theorem claim_C6_trust_boundary :
    (∀ env oracle db req project origin,
      db.projects.find? (fun p => p.slug == req.projectSlug) = some project →
      getHeader req hdrProjectKey = some project.publicKey →
      allowedOriginsOf db project.id ≠ [] →
      getHeader req hdrOrigin = some origin →
      origin ∉ allowedOriginsOf db project.id →
      (∀ ro, (getHeader req hdrReferer).bind parseUrlOrigin = some ro →
        ro ∉ allowedOriginsOf db project.id) →
      requirePublicProject env db req = GateResult.originNotAllowed ∧
        (handlePost env oracle db req).2.status = 403) ∧
    (∀ env oracle db req project,
      db.projects.find? (fun p => p.slug == req.projectSlug) = some project →
      getHeader req hdrProjectKey = some project.publicKey →
      allowedOriginsOf db project.id = [] →
      requirePublicProject env db req = GateResult.ok project.id project.publicKey ∧
        (handlePost env oracle db req).2.status ≠ 403) := by
  constructor
  · intro env oracle db req project origin hfind hkey hallow horigin hmiss hrefmiss
    have hg := gate_originNotAllowed env db req project origin hfind hkey hallow
      horigin hmiss hrefmiss
    exact ⟨hg, handlePost_403_of_originNotAllowed env oracle db req hg⟩
  · intro env oracle db req project hfind hkey hallow
    have hg := gate_ok_of_empty_allowlist env db req project hfind hkey hallow
    exact ⟨hg, handlePost_ok_status_ne_403 env oracle db req project.id
      project.publicKey hg⟩

/-- The C6 empty-allowlist request (correct key, foreign Origin). -/
def c6Req : Request :=
  ⟨"acme".toList, "lead".toList,
    [(("X-Project-Key".toList), "k1".toList),
     (("Origin".toList), "https://evil.example".toList)],
    [(("name".toList), JVal.str ("Ann".toList))], "POST".toList⟩

/-- Witness for C6 at concrete stores and requests. -/
theorem claim_C6_trust_boundary_witness :
    (requirePublicProject cEnv c3Db c3Req = GateResult.originNotAllowed ∧
      (handlePost cEnv okOracle c3Db c3Req).2.status = 403) ∧
    (requirePublicProject cEnv cDb0 c6Req = GateResult.ok 1 ("k1".toList) ∧
      (handlePost cEnv okOracle cDb0 c6Req).2.status ≠ 403) := by
  have hnone : (getHeader c3Req hdrReferer).bind parseUrlOrigin = none := by decide
  constructor
  · exact claim_C6_trust_boundary.1 cEnv okOracle c3Db c3Req
      ⟨1, "acme".toList, "k1".toList⟩ ("https://evil.example".toList)
      (by decide) (by decide) (by decide) (by decide) (by decide)
      (fun ro h => by rw [hnone] at h; cases h)
  · exact claim_C6_trust_boundary.2 cEnv okOracle cDb0 c6Req
      ⟨1, "acme".toList, "k1".toList⟩ (by decide) (by decide) (by decide)

/-- Attach an `Authorization` header to a request. -/
def addAuthHeader (req : Request) (v : Str) : Request :=
  { req with headers := (("Authorization".toList : Str), v) :: req.headers }

theorem getHeader_addAuthHeader (req : Request) (v : Str) (n : Str)
    (h : ("Authorization".toList : Str) ≠ n) :
    getHeader (addAuthHeader req v) n = getHeader req n := by
  have hfalse : ((("Authorization".toList : Str)) == n) = false := by
    simp only [beq_eq_false_iff_ne, ne_eq]
    exact h
  unfold getHeader addAuthHeader
  dsimp only
  rw [List.find?_cons]
  dsimp only
  simp only [hfalse, Bool.cond_false]

/-- C3 amended: the Trust Gate has no staff-preview bypass. With a
non-empty allowlist and an unmatched Origin, attaching a bearer token of
a **valid** staff session of the addressed tenant (per the
`requireAuth` membership semantics) still yields
`originNotAllowed`/403: `requirePublicProject` never reads the
`Authorization` header. -/
theorem claim_C3_amended (env : Env) (db : DB) (req : Request)
    (project : ProjectRow) (origin : Str)
    (hfind : db.projects.find? (fun p => p.slug == req.projectSlug) = some project)
    (hkey : getHeader req hdrProjectKey = some project.publicKey)
    (hallow : allowedOriginsOf db project.id ≠ [])
    (horigin : getHeader req hdrOrigin = some origin)
    (hmiss : origin ∉ allowedOriginsOf db project.id)
    (hrefmiss : ∀ ro, (getHeader req hdrReferer).bind parseUrlOrigin = some ro →
      ro ∉ allowedOriginsOf db project.id) :
    ∀ tok : Str, staffSessionValid db tok project.id = true →
      requirePublicProject env db (addAuthHeader req (("Bearer ".toList) ++ tok))
          = GateResult.originNotAllowed ∧
        ∀ oracle, (handlePost env oracle db
          (addAuthHeader req (("Bearer ".toList) ++ tok))).2.status = 403 := by
  intro tok _hvalid
  have hkey2 : getHeader (addAuthHeader req (("Bearer ".toList) ++ tok)) hdrProjectKey
      = some project.publicKey := by
    rw [getHeader_addAuthHeader _ _ _ (by decide)]
    exact hkey
  have horigin2 : getHeader (addAuthHeader req (("Bearer ".toList) ++ tok)) hdrOrigin
      = some origin := by
    rw [getHeader_addAuthHeader _ _ _ (by decide)]
    exact horigin
  have hrefmiss2 : ∀ ro,
      (getHeader (addAuthHeader req (("Bearer ".toList) ++ tok)) hdrReferer).bind
        parseUrlOrigin = some ro →
      ro ∉ allowedOriginsOf db project.id := by
    intro ro h
    apply hrefmiss ro
    rw [getHeader_addAuthHeader _ _ _ (by decide)] at h
    exact h
  have hg := gate_originNotAllowed env db
    (addAuthHeader req (("Bearer ".toList) ++ tok)) project origin hfind hkey2
    hallow horigin2 hmiss hrefmiss2
  exact ⟨hg, fun oracle => handlePost_403_of_originNotAllowed env oracle db _ hg⟩

/-- The C3 base request (correct key, foreign Origin, no auth header). -/
def c3ReqBase : Request :=
  ⟨"acme".toList, "lead".toList,
    [(("X-Project-Key".toList), "k1".toList),
     (("Origin".toList), "https://evil.example".toList)],
    [(("name".toList), JVal.str ("Ann".toList))], "POST".toList⟩

/-- Witness for the amended C3 at a concrete store and request. -/
theorem claim_C3_amended_witness :
    requirePublicProject cEnv c3Db
        (addAuthHeader c3ReqBase (("Bearer ".toList) ++ ("stafftok".toList)))
        = GateResult.originNotAllowed ∧
      (handlePost cEnv okOracle c3Db
        (addAuthHeader c3ReqBase (("Bearer ".toList) ++ ("stafftok".toList)))).2.status
        = 403 := by
  have hnone : (getHeader c3ReqBase hdrReferer).bind parseUrlOrigin = none := by decide
  have h := claim_C3_amended cEnv c3Db c3ReqBase ⟨1, "acme".toList, "k1".toList⟩
    ("https://evil.example".toList) (by decide) (by decide) (by decide) (by decide)
    (by decide) (fun ro hx => by rw [hnone] at hx; cases hx)
    ("stafftok".toList) (by decide)
  exact ⟨h.1, h.2 okOracle⟩

/-! ### C2 amended, C5 amended, C7 and C10 -/

/-- C2 amended: contact creation lies **outside** the atomic unit. On the
lead form, a failing case insert yields the 500 `Failed to create case`
response while the freshly created contact (id `nextContactId`) remains
committed in storage and no case or transaction was written. On the
donation form only the Case and the Transaction share one `$transaction`
(a failure writes neither), while the contact insert — when the raw-email
lookup missed — again survives the failure. -/
theorem claim_C2_amended :
    (∀ db pid cri body parsed pf proj,
      parseLead body = Except.ok parsed →
      hpTriggered parsed.hp = false →
      db.projects.find? (fun p => p.id == pid) = some proj →
      findFormActive db pid fkLead = some pf →
      (∀ t, cri = some t → findCaseByCRI db pid t = none) →
      ((leadFlow ⟨true, false⟩ db pid cri body).2
          = errResponse 500 ("Failed to create case".toList) ∧
        (∃ ct, (leadFlow ⟨true, false⟩ db pid cri body).1.contacts
            = db.contacts ++ [ct] ∧ ct.id = db.nextContactId) ∧
        (leadFlow ⟨true, false⟩ db pid cri body).1.cases = db.cases ∧
        (leadFlow ⟨true, false⟩ db pid cri body).1.transactions = db.transactions)) ∧
    (∀ oracle db pid cri body parsed pf proj,
      (oracle.caseWriteFails = true ∨ oracle.txnWriteFails = true) →
      parseDonation body = Except.ok parsed →
      hpTriggered parsed.hp = false →
      db.projects.find? (fun p => p.id == pid) = some proj →
      findFormActive db pid fkDonation = some pf →
      (∀ t, cri = some t → findCaseByCRI db pid t = none) →
      ((donationFlow oracle db pid cri body).2
          = errResponse 500 ("Failed to process donation".toList) ∧
        (donationFlow oracle db pid cri body).1.cases = db.cases ∧
        (donationFlow oracle db pid cri body).1.transactions = db.transactions ∧
        (findContactByRawEmail db pid (normalizeText parsed.email) = none →
          ∃ ct, (donationFlow oracle db pid cri body).1.contacts
              = db.contacts ++ [ct] ∧ ct.id = db.nextContactId))) := by
  constructor
  · intro db pid cri body parsed pf proj hparse hhp hproj hform hnoexist
    simp only [leadFlow, hparse]
    rw [if_neg (by rw [hhp]; simp)]
    rw [hproj, hform]
    dsimp only
    cases cri with
    | none =>
      dsimp only
      exact ⟨rfl, ⟨_, rfl, rfl⟩, rfl, rfl⟩
    | some t =>
      dsimp only
      rw [hnoexist t rfl]
      dsimp only
      exact ⟨rfl, ⟨_, rfl, rfl⟩, rfl, rfl⟩
  · intro oracle db pid cri body parsed pf proj hfail hparse hhp hproj hform hnoexist
    have hcond : (oracle.caseWriteFails || oracle.txnWriteFails) = true := by
      rcases hfail with h | h <;> simp [h]
    simp only [donationFlow, hparse]
    rw [if_neg (by rw [hhp]; simp)]
    rw [hproj, hform]
    dsimp only
    cases cri with
    | none =>
      dsimp only
      cases hem : normalizeText parsed.email with
      | none =>
        dsimp only [findContactByRawEmail, donationCreate]
        rw [if_pos hcond]
        exact ⟨rfl, rfl, rfl, fun _ => ⟨_, rfl, rfl⟩⟩
      | some e =>
        dsimp only [findContactByRawEmail]
        cases hfind : List.find? (fun c => c.projectId == pid && c.email == some e)
            db.contacts with
        | some c =>
          dsimp only [donationCreate]
          rw [if_pos hcond]
          refine ⟨rfl, rfl, rfl, ?_⟩
          intro hn
          cases hn
        | none =>
          dsimp only [donationCreate]
          rw [if_pos hcond]
          exact ⟨rfl, rfl, rfl, fun _ => ⟨_, rfl, rfl⟩⟩
    | some t =>
      dsimp only
      rw [hnoexist t rfl]
      dsimp only
      cases hem : normalizeText parsed.email with
      | none =>
        dsimp only [findContactByRawEmail, donationCreate]
        rw [if_pos hcond]
        exact ⟨rfl, rfl, rfl, fun _ => ⟨_, rfl, rfl⟩⟩
      | some e =>
        dsimp only [findContactByRawEmail]
        cases hfind : List.find? (fun c => c.projectId == pid && c.email == some e)
            db.contacts with
        | some c =>
          dsimp only [donationCreate]
          rw [if_pos hcond]
          refine ⟨rfl, rfl, rfl, ?_⟩
          intro hn
          cases hn
        | none =>
          dsimp only [donationCreate]
          rw [if_pos hcond]
          exact ⟨rfl, rfl, rfl, fun _ => ⟨_, rfl, rfl⟩⟩

/-- Witness for the amended C2 at a concrete store and body. -/
theorem claim_C2_amended_witness :
    (leadFlow ⟨true, false⟩ cDb0 1 none c2Body).2
        = errResponse 500 ("Failed to create case".toList) ∧
      (leadFlow ⟨true, false⟩ cDb0 1 none c2Body).1.cases = cDb0.cases := by
  have h := claim_C2_amended.1 cDb0 1 none c2Body
    ⟨some ("Ann".toList), none, none, none, none, none⟩
    ⟨1, 1, "lead".toList, true⟩ ⟨1, "acme".toList, "k1".toList⟩
    rfl (by decide) (by decide) (by decide)
    (fun t h => Option.noConfusion h)
  exact ⟨h.1, h.2.2.1⟩

/-- A donation body without `amount` always fails validation with the
`nan` issue on path `["amount"]` among its errors. -/
theorem parseDonation_missing_amount (body : JObj)
    (h : body.get ("amount".toList) = JVal.undef) :
    ∃ L, parseDonation body = Except.error L ∧
      (⟨["amount".toList], "Expected number, received nan".toList⟩ : ZIssue) ∈ L := by
  rcases h1 : fieldString ("name".toList) true false 100 (body.get ("name".toList))
    with ⟨e1, name⟩
  rcases h2 : fieldString ("email".toList) true true 255 (body.get ("email".toList))
    with ⟨e2, email⟩
  rcases h3 : fieldString ("phone".toList) true false 30 (body.get ("phone".toList))
    with ⟨e3, phone⟩
  have h4 : fieldAmount ("amount".toList) (body.get ("amount".toList))
      = ([⟨["amount".toList], "Expected number, received nan".toList⟩], none) := by
    rw [h]
    rfl
  rcases h5 : fieldString ("message".toList) true false 2000 (body.get ("message".toList))
    with ⟨e5, message⟩
  rcases h6 : fieldString ("source".toList) true false 100 (body.get ("source".toList))
    with ⟨e6, source⟩
  rcases h7 : fieldHp ("__hp".toList) (body.get ("__hp".toList)) with ⟨e7, hp⟩
  unfold parseDonation
  rw [h1, h2, h3, h4, h5, h6, h7]
  dsimp only
  have hmem : (⟨["amount".toList], "Expected number, received nan".toList⟩ : ZIssue)
      ∈ e1 ++ e2 ++ e3 ++ [⟨["amount".toList], "Expected number, received nan".toList⟩]
        ++ e5 ++ e6 ++ e7 := by
    simp
  rw [if_pos (List.ne_nil_of_mem hmem)]
  exact ⟨_, rfl, hmem⟩

/-- C5 amended: a donation submission without `amount` (past the gate,
with no idempotent replay available) is answered with 400, an untouched
store and a structured detail list containing the entry with path
`["amount"]` and message `"Expected number, received nan"` — not
`"Required"`, and keyed by `path`, not `field`. The handler is a total
function into `Response`, so no exception reaches the caller. -/
theorem claim_C5_amended (env : Env) (oracle : Oracle) (db : DB) (req : Request)
    (pid : Nat) (pk : Str)
    (hgate : requirePublicProject env db req = GateResult.ok pid pk)
    (hform : req.formKey = fkDonation)
    (hnoreplay : ∀ t, requestCRI req = some t → findCaseByCRI db pid t = none)
    (hamount : req.body.get ("amount".toList) = JVal.undef) :
    (handlePost env oracle db req).1 = db ∧
      (handlePost env oracle db req).2.status = 400 ∧
      (handlePost env oracle db req).2.errorMsg = some ("Validation error".toList) ∧
      ∃ i ∈ (handlePost env oracle db req).2.details,
        i.path = ["amount".toList] ∧
          i.message = "Expected number, received nan".toList := by
  obtain ⟨L, hL, hmem⟩ := parseDonation_missing_amount req.body hamount
  unfold handlePost
  rw [hgate]
  dsimp only
  have hdon : ¬ (fkDonation = fkLead) := by decide
  cases hcri : requestCRI req with
  | none =>
    dsimp only
    rw [hform]
    rw [if_neg hdon, if_pos rfl]
    unfold donationFlow
    rw [hL]
    exact ⟨rfl, rfl, rfl, ⟨_, hmem, rfl, rfl⟩⟩
  | some t =>
    dsimp only
    rw [hnoreplay t hcri]
    dsimp only
    rw [hform]
    rw [if_neg hdon, if_pos rfl]
    unfold donationFlow
    rw [hL]
    exact ⟨rfl, rfl, rfl, ⟨_, hmem, rfl, rfl⟩⟩

/-- Witness for the amended C5 on the smoke-test body. -/
theorem claim_C5_amended_witness :
    (handlePost cEnv okOracle cDb0 (donationReq c5Body)).1 = cDb0 ∧
      (handlePost cEnv okOracle cDb0 (donationReq c5Body)).2.status = 400 := by
  have hn : requestCRI (donationReq c5Body) = none := by decide
  have h := claim_C5_amended cEnv okOracle cDb0 (donationReq c5Body) 1 ("k1".toList)
    (by decide) rfl (fun t ht => by rw [hn] at ht; cases ht) (by decide)
  exact ⟨h.1, h.2.1⟩

/-- A store whose only contact has the placeholder name `Unknown`. -/
def c7Db : DB :=
  ⟨[⟨1, "acme".toList, "k1".toList⟩], [], cForms,
    [⟨1, 1, "Unknown".toList, some ("a@b.co".toList), none, none,
      some ("a@b.co".toList), none⟩],
    [], [], [], [], 2, 1, 1⟩

/-- C7 counterexample: the stored display name `"Unknown"` is populated
(non-empty), yet resolving the same normalized email with the new name
`Alice` **overwrites** it — `findOrCreateContact` deliberately treats
the literal `'Unknown'` as replaceable, contradicting "never overwrites
a populated display name". -/
theorem claim_C7_counterexample :
    c7Db.contacts.map (fun c => c.name) = ["Unknown".toList] ∧
      "Unknown".toList ≠ [] ∧
      ((findOrCreateContact c7Db 1 (some ("Alice".toList))
          (some ("A@b.co".toList)) none none).2).name = "Alice".toList ∧
      "Alice".toList ≠ "Unknown".toList := by
  refine ⟨rfl, by decide, ?_, by decide⟩
  rfl

/-- C7 amended: when the lookup finds an existing contact, backfill only
touches empty fields — a populated name **other than the placeholder
`'Unknown'`** is never overwritten, and populated email, phone and notes
are never overwritten; the row keeps its identity. -/
theorem claim_C7_amended (db : DB) (pid : Nat)
    (name email phone notes : Option Str) (c : ContactRow)
    (hfound : focLookup db pid (normalizeEmailOptional email)
      (normalizePhoneOptional phone) = some c) :
    ((c.name ≠ [] ∧ c.name ≠ "Unknown".toList) →
        ((findOrCreateContact db pid name email phone notes).2).name = c.name) ∧
      (optFalsy c.email = false →
        ((findOrCreateContact db pid name email phone notes).2).email = c.email) ∧
      (optFalsy c.phone = false →
        ((findOrCreateContact db pid name email phone notes).2).phone = c.phone) ∧
      (optFalsy c.notes = false →
        ((findOrCreateContact db pid name email phone notes).2).notes = c.notes) ∧
      ((findOrCreateContact db pid name email phone notes).2).id = c.id ∧
      ((findOrCreateContact db pid name email phone notes).2).projectId
        = c.projectId := by
  unfold findOrCreateContact
  dsimp only
  rw [hfound]
  dsimp only [backfillContact]
  refine ⟨?_, ?_, ?_, ?_, rfl, rfl⟩
  · intro ⟨h1, h2⟩
    rw [if_neg h1, if_neg (fun hx => h2 hx.2)]
  · intro h
    rw [if_neg (fun hx => by rw [h] at hx; cases hx.2)]
  · intro h
    rw [if_neg (fun hx => by rw [h] at hx; cases hx.2)]
  · intro h
    rw [if_neg (fun hx => by rw [h] at hx; cases hx.2)]

/-- A store whose only contact has the real name `Bob`. -/
def c7DbW : DB :=
  ⟨[⟨1, "acme".toList, "k1".toList⟩], [], cForms,
    [⟨1, 1, "Bob".toList, some ("b@x.co".toList), none, none,
      some ("b@x.co".toList), none⟩],
    [], [], [], [], 2, 1, 1⟩

/-- Witness for the amended C7: a contact named `Bob` keeps its name. -/
theorem claim_C7_amended_witness :
    ((findOrCreateContact c7DbW 1 (some ("Eve".toList))
        (some ("b@x.co".toList)) none none).2).name = "Bob".toList ∧
      ((findOrCreateContact c7DbW 1 (some ("Eve".toList))
        (some ("b@x.co".toList)) none none).2).id = 1 := by
  have h := claim_C7_amended c7DbW 1 (some ("Eve".toList))
    (some ("b@x.co".toList)) none none
    ⟨1, 1, "Bob".toList, some ("b@x.co".toList), none, none,
      some ("b@x.co".toList), none⟩ (by decide)
  exact ⟨h.1 ⟨by decide, by decide⟩, h.2.2.2.2.1⟩

/-- A body carrying only the honeypot field. -/
def c10Body : JObj := [(("__hp".toList), JVal.str ("bot".toList))]

/-- C10 counterexample: a lead submission whose body carries only a
non-empty `__hp` fails schema validation (the requireOneOf refine) and
is answered 400 — not 202 — because the honeypot check runs only after
`schema.parse` succeeds, so "regardless of whether the rest of the
payload is valid" is false. -/
theorem claim_C10_counterexample :
    (handlePost cEnv okOracle cDb0 (leadReq c10Body)).2.status = 400 ∧
      (handlePost cEnv okOracle cDb0 (leadReq c10Body)).2.received = false := by
  decide

/-- C10 amended: for every submission to any of the four form kinds that
**passes schema validation** (and was not already answered as an
idempotent replay), a `__hp` value that is non-empty after trimming
makes the handler answer 202 `{received: true}` and leave the store
completely untouched — no contact, case or transaction is created. -/
theorem claim_C10_amended :
    (∀ oracle db pid cri body parsed, parseLead body = Except.ok parsed →
      hpTriggered parsed.hp = true →
      leadFlow oracle db pid cri body = (db, honeypotResponse)) ∧
    (∀ oracle db pid cri body parsed, parseDonation body = Except.ok parsed →
      hpTriggered parsed.hp = true →
      donationFlow oracle db pid cri body = (db, honeypotResponse)) ∧
    (∀ oracle db pid cri body parsed, parseBooking body = Except.ok parsed →
      hpTriggered parsed.hp = true →
      bookingFlow oracle db pid cri body = (db, honeypotResponse)) ∧
    (∀ oracle db pid cri body parsed, parseFeedback body = Except.ok parsed →
      hpTriggered parsed.hp = true →
      feedbackFlow oracle db pid cri body = (db, honeypotResponse)) ∧
    honeypotResponse.status = 202 ∧ honeypotResponse.received = true := by
  refine ⟨?_, ?_, ?_, ?_, rfl, rfl⟩
  · intro oracle db pid cri body parsed hparse hhp
    unfold leadFlow
    rw [hparse]
    dsimp only
    rw [if_pos hhp]
  · intro oracle db pid cri body parsed hparse hhp
    unfold donationFlow
    rw [hparse]
    dsimp only
    rw [if_pos hhp]
  · intro oracle db pid cri body parsed hparse hhp
    unfold bookingFlow
    rw [hparse]
    dsimp only
    rw [if_pos hhp]
  · intro oracle db pid cri body parsed hparse hhp
    unfold feedbackFlow
    rw [hparse]
    dsimp only
    rw [if_pos hhp]

/-- A schema-valid body with a triggered honeypot. -/
def c10BodyW : JObj :=
  [(("name".toList), JVal.str ("Ann".toList)),
   (("__hp".toList), JVal.str ("x".toList))]

/-- Witness for the amended C10 at a concrete body. -/
theorem claim_C10_amended_witness :
    leadFlow okOracle cDb0 1 none c10BodyW = (cDb0, honeypotResponse) :=
  claim_C10_amended.1 okOracle cDb0 1 none c10BodyW
    ⟨some ("Ann".toList), none, none, none, none, some ("x".toList)⟩
    rfl (by decide)



end MiniCrm




